import Mathlib

/-!
# Sdb_cl: the collection handle of the SequoiaDB storage engine (sdb_cl.cc)

A shallow embedding of `Sdb_cl`.  Every member function of the source becomes a
function on an explicit `State`: the fields of the handle together with the
history of the calls it has made on its collaborators.  The behaviour of the
collaborators (the remote collection reference, the cursors, the connection) is
an arbitrary `Remote`: the status each of their calls returns, call by call.
Constants and helpers that come from headers outside the source file are the
fields of `Consts`.

Conventions of the translation:

* `goto retry` is a recursive call.  `retry_times` is an `int` that starts at 2,
  is only changed by `retry_times-- > 0`, and is never read again once that
  test has failed; it is a `Nat` here, the test is a match on it.
* `&&` evaluates its operands from left to right and stops at the first false
  one; calls inside a condition are therefore made in the order of the source
  and recorded in the history before the condition is decided.
* A function with several `goto error` sites computes `rc` up to the first site
  that jumps and enters the `error` block once.
* The operations other than `init` use `p_conn` without a test; they describe a
  handle that has been bound by `init`.
-/

namespace SdbCl

/-- Constants, the macro `IS_SDB_NET_ERR` and the function `convert_sdb_code`
that sdb_cl.cc takes from its headers (sdb_err_code.h, the SequoiaDB client
headers, my_base.h).  They are parameters of the embedding. -/
structure Consts where
  SDB_ERR_OK : Int
  SDB_ERR_INVALID_ARG : Int
  SDB_NETWORK : Int
  SDB_NOT_CONNECTED : Int
  SDB_DMS_EOC : Int
  SDB_DMS_NOTEXIST : Int
  SDB_IXM_REDEF : Int
  SDB_IXM_NOTEXIST : Int
  HA_ERR_END_OF_FILE : Int
  SDB_CS_NAME_MAX_SIZE : Nat
  SDB_CL_NAME_MAX_SIZE : Nat
  IS_SDB_NET_ERR : Int → Bool
  convert_sdb_code : Int → Int

/-- The methods of the remote collection reference `cl` that the handle calls. -/
inductive ClMethod where
  | query
  | insert
  | upsert
  | update
  | del
  | createIndex
  | dropIndex
  | truncate
  | drop
  | getCount
  deriving DecidableEq, Repr

/-- One call made by the handle on a collaborator.  `cursor_tmp_next` is the
fetch on the local cursor of `query_one`; `cursor_current` and `cursor_next`
are fetches on the cursor the handle owns. -/
inductive Event where
  | cl (m : ClMethod)
  | cursor_current
  | cursor_next
  | cursor_tmp_next
  | is_transaction_on
  | connect
  | getCollectionSpace
  | getCollection
  | convert_sdb_code
  deriving DecidableEq, Repr

/-- Is the event a call on the remote collection reference? -/
def Event.is_cl : Event → Bool
  | .cl _ => true
  | _ => false

/-- Is the event a fetch on a cursor (the one of the handle or a temporary one)? -/
def Event.is_fetch : Event → Bool
  | .cursor_current => true
  | .cursor_next => true
  | .cursor_tmp_next => true
  | _ => false

/-- The connection object `Sdb_conn` as far as the handle reads it directly. -/
structure Sdb_conn where
  thread_id : Nat
  deriving DecidableEq, Repr

/-- Behaviour of the collaborators: what the k-th call of each kind returns
(k counts from 0 over the whole history of the handle). -/
structure Remote where
  /-- Status of the k-th call on the remote collection reference. -/
  cl_status : Nat → Int
  /-- Cursor that the k-th call on the collection reference leaves in its
  cursor out-parameter (read for `cl.query` only). -/
  query_cursor : Nat → Nat
  /-- Status of the k-th cursor fetch. -/
  fetch_status : Nat → Int
  /-- Answer to the k-th `Sdb_conn::is_transaction_on`. -/
  transaction_on : Nat → Bool
  /-- Status of the k-th `Sdb_conn::connect`. -/
  connect_status : Nat → Int
  /-- Status of the k-th `getCollectionSpace`. -/
  cs_status : Nat → Int
  /-- Status of the k-th `getCollection`. -/
  getcl_status : Nat → Int
  /-- Collection reference the k-th `getCollection` leaves in its out-parameter. -/
  collection_ref : Nat → Nat

/-- The fields of `Sdb_cl` and the calls made so far, most recent first. -/
structure State where
  p_conn : Option Sdb_conn
  m_thread_id : Nat
  cs_name : List Char
  cl_name : List Char
  cl : Nat
  cursor : Nat
  trace : List Event
  deriving DecidableEq, Repr

/-- The state of `Sdb_cl::Sdb_cl()`: no connection, thread id 0, nothing called. -/
def State.fresh : State :=
  { p_conn := none, m_thread_id := 0, cs_name := [], cl_name := [], cl := 0, cursor := 0,
    trace := [] }

/-- Number of calls made on the remote collection reference. -/
def State.cl_calls (s : State) : Nat := s.trace.countP Event.is_cl

/-- Number of cursor fetches. -/
def State.fetches (s : State) : Nat := s.trace.countP Event.is_fetch

/-- Number of reconnect attempts (calls of `Sdb_conn::connect`). -/
def State.connects (s : State) : Nat := s.trace.count Event.connect

/-- Number of times the transaction flag of the connection was read. -/
def State.transaction_queries (s : State) : Nat := s.trace.count Event.is_transaction_on

/-- Number of calls of `convert_sdb_code`. -/
def State.conversions (s : State) : Nat := s.trace.count Event.convert_sdb_code

/-- Number of `getCollectionSpace` calls. -/
def State.cs_calls (s : State) : Nat := s.trace.count Event.getCollectionSpace

/-- Number of `getCollection` calls. -/
def State.getcl_calls (s : State) : Nat := s.trace.count Event.getCollection

/-- The calls in the order they were made. -/
def State.history (s : State) : List Event := s.trace.reverse

/-- Record a call. -/
def State.log (s : State) (e : Event) : State := { s with trace := e :: s.trace }

/-- A call `cl.m(...)` on the remote collection reference. -/
def cl_call (r : Remote) (m : ClMethod) (s : State) : Int × State :=
  (r.cl_status s.cl_calls, s.log (.cl m))

/-- The call `cl.query(cursor, ...)` with the cursor of the handle as out-parameter. -/
def cl_query_cursor (r : Remote) (s : State) : Int × State :=
  (r.cl_status s.cl_calls, { s.log (.cl .query) with cursor := r.query_cursor s.cl_calls })

/-- A fetch on a cursor. -/
def fetch (r : Remote) (e : Event) (s : State) : Int × State :=
  (r.fetch_status s.fetches, s.log e)

/-- The call `p_conn->is_transaction_on()`. -/
def conn_is_transaction_on (r : Remote) (s : State) : Bool × State :=
  (r.transaction_on s.transaction_queries, s.log .is_transaction_on)

/-- The call `p_conn->connect()`. -/
def conn_connect (r : Remote) (s : State) : Int × State :=
  (r.connect_status s.connects, s.log .connect)

/-- The call `p_conn->get_sdb().getCollectionSpace(cs_name, cs)`. -/
def getCollectionSpace (r : Remote) (s : State) : Int × State :=
  (r.cs_status s.cs_calls, s.log .getCollectionSpace)

/-- The call `cs.getCollection(cl_name, cl)` with the reference of the handle as
out-parameter. -/
def getCollection (r : Remote) (s : State) : Int × State :=
  (r.getcl_status s.getcl_calls,
    { s.log .getCollection with cl := r.collection_ref s.getcl_calls })

/-- The statement `convert_sdb_code(rc); goto done;` followed by `return rc`. -/
def convert_and_return (c : Consts) (rc : Int) (s : State) : Int × State :=
  (c.convert_sdb_code rc, s.log .convert_sdb_code)

/-- The body of `Sdb_cl::re_init` from the label `retry`, with the current value
of `retry_times`. -/
def re_init_from (c : Consts) (r : Remote) : Nat → State → Int × State
  | retry_times, s =>
    let (rc, s) := getCollectionSpace r s
    let (rc, s) := if rc ≠ c.SDB_ERR_OK then (rc, s) else getCollection r s
    if rc ≠ c.SDB_ERR_OK then
      -- error:
      if c.IS_SDB_NET_ERR rc then
        let (is_transaction, s) := conn_is_transaction_on r s
        if !is_transaction then
          match retry_times with
          | n + 1 =>
            let (crc, s) := conn_connect r s
            if 0 = crc then re_init_from c r n s else convert_and_return c rc s
          | 0 => convert_and_return c rc s
        else convert_and_return c rc s
      else convert_and_return c rc s
    else (rc, s)

/-- The function `Sdb_cl::re_init`. -/
def re_init (c : Consts) (r : Remote) (s : State) : Int × State :=
  re_init_from c r 2 s

/-- The function `Sdb_cl::init`; a null pointer argument is `none`. -/
def init (c : Consts) (r : Remote) (connection : Option Sdb_conn)
    (cs cl : Option (List Char)) (s : State) : Int × State :=
  match connection, cs, cl with
  | some conn, some cs, some cl =>
    re_init c r
      { s with
        p_conn := some conn
        m_thread_id := conn.thread_id
        cs_name := cs.take c.SDB_CS_NAME_MAX_SIZE
        cl_name := cl.take c.SDB_CL_NAME_MAX_SIZE }
  | _, _, _ => (c.SDB_ERR_INVALID_ARG, s)

/-- The function `Sdb_cl::get_cs_name`. -/
def get_cs_name (s : State) : List Char := s.cs_name

/-- The function `Sdb_cl::get_cl_name`. -/
def get_cl_name (s : State) : List Char := s.cl_name

/-- The function `Sdb_cl::thread_id`. -/
def thread_id (s : State) : Nat := s.m_thread_id

/-- The body of `Sdb_cl::query` from the label `retry`, with the current value
of `retry_times`. -/
def query_from (c : Consts) (r : Remote) : Nat → State → Int × State
  | retry_times, s =>
    let (rc, s) := cl_query_cursor r s
    if rc ≠ c.SDB_ERR_OK then
      -- error:
      if c.IS_SDB_NET_ERR rc then
        let (is_transaction, s) := conn_is_transaction_on r s
        let (crc, s) := conn_connect r s
        if 0 = crc ∧ !is_transaction then
          match retry_times with
          | n + 1 => query_from c r n s
          | 0 => convert_and_return c rc s
        else convert_and_return c rc s
      else convert_and_return c rc s
    else (rc, s)

/-- The function `Sdb_cl::query`. -/
def query (c : Consts) (r : Remote) (s : State) : Int × State :=
  query_from c r 2 s

/-- The body of `Sdb_cl::query_one` from the label `retry`, with the current value
of `retry_times`.  The second fetch of `rc` happens only when the query
succeeded; both failures jump to `error`. -/
def query_one_from (c : Consts) (r : Remote) : Nat → State → Int × State
  | retry_times, s =>
    let (rc, s) := cl_call r .query s
    let (rc, s) := if rc ≠ c.SDB_ERR_OK then (rc, s) else fetch r .cursor_tmp_next s
    if rc ≠ c.SDB_ERR_OK then
      -- error:
      if c.IS_SDB_NET_ERR rc then
        let (is_transaction, s) := conn_is_transaction_on r s
        let (crc, s) := conn_connect r s
        if 0 = crc ∧ !is_transaction then
          match retry_times with
          | n + 1 => query_one_from c r n s
          | 0 => convert_and_return c rc s
        else convert_and_return c rc s
      else convert_and_return c rc s
    else (rc, s)

/-- The function `Sdb_cl::query_one`. -/
def query_one (c : Consts) (r : Remote) (s : State) : Int × State :=
  query_one_from c r 2 s

/-- The body of `Sdb_cl::insert` from the label `retry`, with the current value
of `retry_times`. -/
def insert_from (c : Consts) (r : Remote) : Nat → State → Int × State
  | retry_times, s =>
    let (rc, s) := cl_call r .insert s
    if rc ≠ c.SDB_ERR_OK then
      -- error:
      if c.IS_SDB_NET_ERR rc then
        let (is_transaction, s) := conn_is_transaction_on r s
        let (crc, s) := conn_connect r s
        if 0 = crc ∧ !is_transaction then
          match retry_times with
          | n + 1 => insert_from c r n s
          | 0 => convert_and_return c rc s
        else convert_and_return c rc s
      else convert_and_return c rc s
    else (rc, s)

/-- The function `Sdb_cl::insert`. -/
def insert (c : Consts) (r : Remote) (s : State) : Int × State :=
  insert_from c r 2 s

/-- The body of `Sdb_cl::upsert` from the label `retry`, with the current value
of `retry_times`. -/
def upsert_from (c : Consts) (r : Remote) : Nat → State → Int × State
  | retry_times, s =>
    let (rc, s) := cl_call r .upsert s
    if rc ≠ c.SDB_ERR_OK then
      -- error:
      if c.IS_SDB_NET_ERR rc then
        let (is_transaction, s) := conn_is_transaction_on r s
        let (crc, s) := conn_connect r s
        if 0 = crc ∧ !is_transaction then
          match retry_times with
          | n + 1 => upsert_from c r n s
          | 0 => convert_and_return c rc s
        else convert_and_return c rc s
      else convert_and_return c rc s
    else (rc, s)

/-- The function `Sdb_cl::upsert`. -/
def upsert (c : Consts) (r : Remote) (s : State) : Int × State :=
  upsert_from c r 2 s

/-- The body of `Sdb_cl::update` from the label `retry`, with the current value
of `retry_times`. -/
def update_from (c : Consts) (r : Remote) : Nat → State → Int × State
  | retry_times, s =>
    let (rc, s) := cl_call r .update s
    if rc ≠ c.SDB_ERR_OK then
      -- error:
      if c.IS_SDB_NET_ERR rc then
        let (is_transaction, s) := conn_is_transaction_on r s
        let (crc, s) := conn_connect r s
        if 0 = crc ∧ !is_transaction then
          match retry_times with
          | n + 1 => update_from c r n s
          | 0 => convert_and_return c rc s
        else convert_and_return c rc s
      else convert_and_return c rc s
    else (rc, s)

/-- The function `Sdb_cl::update`. -/
def update (c : Consts) (r : Remote) (s : State) : Int × State :=
  update_from c r 2 s

/-- The body of `Sdb_cl::del` from the label `retry`, with the current value
of `retry_times`. -/
def del_from (c : Consts) (r : Remote) : Nat → State → Int × State
  | retry_times, s =>
    let (rc, s) := cl_call r .del s
    if rc ≠ c.SDB_ERR_OK then
      -- error:
      if c.IS_SDB_NET_ERR rc then
        let (is_transaction, s) := conn_is_transaction_on r s
        let (crc, s) := conn_connect r s
        if 0 = crc ∧ !is_transaction then
          match retry_times with
          | n + 1 => del_from c r n s
          | 0 => convert_and_return c rc s
        else convert_and_return c rc s
      else convert_and_return c rc s
    else (rc, s)

/-- The function `Sdb_cl::del`. -/
def del (c : Consts) (r : Remote) (s : State) : Int × State :=
  del_from c r 2 s

/-- The body of `Sdb_cl::create_index` from the label `retry`, with the current value
of `retry_times`. -/
def create_index_from (c : Consts) (r : Remote) : Nat → State → Int × State
  | retry_times, s =>
    let (rc, s) := cl_call r .createIndex s
    let rc := if c.SDB_IXM_REDEF = rc then c.SDB_ERR_OK else rc
    if rc ≠ c.SDB_ERR_OK then
      -- error:
      if c.IS_SDB_NET_ERR rc then
        let (is_transaction, s) := conn_is_transaction_on r s
        let (crc, s) := conn_connect r s
        if 0 = crc ∧ !is_transaction then
          match retry_times with
          | n + 1 => create_index_from c r n s
          | 0 => convert_and_return c rc s
        else convert_and_return c rc s
      else convert_and_return c rc s
    else (rc, s)

/-- The function `Sdb_cl::create_index`. -/
def create_index (c : Consts) (r : Remote) (s : State) : Int × State :=
  create_index_from c r 2 s

/-- The body of `Sdb_cl::drop_index` from the label `retry`, with the current value
of `retry_times`. -/
def drop_index_from (c : Consts) (r : Remote) : Nat → State → Int × State
  | retry_times, s =>
    let (rc, s) := cl_call r .dropIndex s
    let rc := if c.SDB_IXM_NOTEXIST = rc then c.SDB_ERR_OK else rc
    if rc ≠ c.SDB_ERR_OK then
      -- error:
      if c.IS_SDB_NET_ERR rc then
        let (is_transaction, s) := conn_is_transaction_on r s
        let (crc, s) := conn_connect r s
        if 0 = crc ∧ !is_transaction then
          match retry_times with
          | n + 1 => drop_index_from c r n s
          | 0 => convert_and_return c rc s
        else convert_and_return c rc s
      else convert_and_return c rc s
    else (rc, s)

/-- The function `Sdb_cl::drop_index`. -/
def drop_index (c : Consts) (r : Remote) (s : State) : Int × State :=
  drop_index_from c r 2 s

/-- The body of `Sdb_cl::truncate` from the label `retry`, with the current value
of `retry_times`. -/
def truncate_from (c : Consts) (r : Remote) : Nat → State → Int × State
  | retry_times, s =>
    let (rc, s) := cl_call r .truncate s
    if rc ≠ c.SDB_ERR_OK then
      -- error:
      if c.IS_SDB_NET_ERR rc then
        let (is_transaction, s) := conn_is_transaction_on r s
        let (crc, s) := conn_connect r s
        if 0 = crc ∧ !is_transaction then
          match retry_times with
          | n + 1 => truncate_from c r n s
          | 0 => convert_and_return c rc s
        else convert_and_return c rc s
      else convert_and_return c rc s
    else (rc, s)

/-- The function `Sdb_cl::truncate`. -/
def truncate (c : Consts) (r : Remote) (s : State) : Int × State :=
  truncate_from c r 2 s

/-- The body of `Sdb_cl::drop` from the label `retry`, with the current value
of `retry_times`.  Inside `rc != SDB_ERR_OK` the status `SDB_DMS_NOTEXIST`
sets `rc = SDB_ERR_OK` and jumps to `done`. -/
def drop_from (c : Consts) (r : Remote) : Nat → State → Int × State
  | retry_times, s =>
    let (rc, s) := cl_call r .drop s
    if rc ≠ c.SDB_ERR_OK then
      if c.SDB_DMS_NOTEXIST = rc then (c.SDB_ERR_OK, s)
      else
        -- error:
        if c.IS_SDB_NET_ERR rc then
          let (is_transaction, s) := conn_is_transaction_on r s
          let (crc, s) := conn_connect r s
          if 0 = crc ∧ !is_transaction then
            match retry_times with
            | n + 1 => drop_from c r n s
            | 0 => convert_and_return c rc s
          else convert_and_return c rc s
        else convert_and_return c rc s
    else (rc, s)

/-- The function `Sdb_cl::drop`. -/
def drop (c : Consts) (r : Remote) (s : State) : Int × State :=
  drop_from c r 2 s

/-- The body of `Sdb_cl::get_count` from the label `retry`, with the current value
of `retry_times`. -/
def get_count_from (c : Consts) (r : Remote) : Nat → State → Int × State
  | retry_times, s =>
    let (rc, s) := cl_call r .getCount s
    if rc ≠ c.SDB_ERR_OK then
      -- error:
      if c.IS_SDB_NET_ERR rc then
        let (is_transaction, s) := conn_is_transaction_on r s
        let (crc, s) := conn_connect r s
        if 0 = crc ∧ !is_transaction then
          match retry_times with
          | n + 1 => get_count_from c r n s
          | 0 => convert_and_return c rc s
        else convert_and_return c rc s
      else convert_and_return c rc s
    else (rc, s)

/-- The function `Sdb_cl::get_count`. -/
def get_count (c : Consts) (r : Remote) (s : State) : Int × State :=
  get_count_from c r 2 s

/-- The function `Sdb_cl::current`. -/
def current (c : Consts) (r : Remote) (s : State) : Int × State :=
  let (rc, s) := fetch r .cursor_current s
  if rc ≠ c.SDB_ERR_OK then
    let rc := if c.SDB_DMS_EOC = rc then c.HA_ERR_END_OF_FILE else rc
    -- error:
    convert_and_return c rc s
  else (rc, s)

/-- The function `Sdb_cl::next`. -/
def next (c : Consts) (r : Remote) (s : State) : Int × State :=
  let (rc, s) := fetch r .cursor_next s
  if rc ≠ c.SDB_ERR_OK then
    let rc := if c.SDB_DMS_EOC = rc then c.HA_ERR_END_OF_FILE else rc
    -- error:
    convert_and_return c rc s
  else (rc, s)

/-- The function `Sdb_cl::check_connect`. -/
def check_connect (c : Consts) (r : Remote) (rc : Int) (s : State) : Int × State :=
  if c.SDB_NETWORK = rc ∨ c.SDB_NOT_CONNECTED = rc then conn_connect r s
  else (c.SDB_ERR_OK, s)

/-- The function `Sdb_cl::is_transaction_on`. -/
def is_transaction_on (r : Remote) (s : State) : Bool × State :=
  conn_is_transaction_on r s

/-- The eleven operations of the handle that retry after a network error. -/
inductive Op where
  | query
  | query_one
  | insert
  | upsert
  | update
  | del
  | create_index
  | drop_index
  | truncate
  | drop
  | get_count
  deriving DecidableEq, Repr

/-- The source function of each operation. -/
def run (c : Consts) (r : Remote) : Op → State → Int × State
  | .query => query c r
  | .query_one => query_one c r
  | .insert => insert c r
  | .upsert => upsert c r
  | .update => update c r
  | .del => del c r
  | .create_index => create_index c r
  | .drop_index => drop_index c r
  | .truncate => truncate c r
  | .drop => drop c r
  | .get_count => get_count c r

/-- The method of the collection reference an operation calls. -/
def Op.method : Op → ClMethod
  | .query => .query
  | .query_one => .query
  | .insert => .insert
  | .upsert => .upsert
  | .update => .update
  | .del => .del
  | .create_index => .createIndex
  | .drop_index => .dropIndex
  | .truncate => .truncate
  | .drop => .drop
  | .get_count => .getCount

/-- The status an operation turns into `SDB_ERR_OK` right after the call
(`SDB_IXM_REDEF` in `create_index`, `SDB_IXM_NOTEXIST` in `drop_index`,
`SDB_DMS_NOTEXIST` in `drop`), if it has one. -/
def Op.normalized (c : Consts) : Op → Option Int
  | .create_index => some c.SDB_IXM_REDEF
  | .drop_index => some c.SDB_IXM_NOTEXIST
  | .drop => some c.SDB_DMS_NOTEXIST
  | _ => none

/-- The call on the collection reference fails for the operation: its status is
neither `SDB_ERR_OK` nor the status the operation turns into `SDB_ERR_OK`. -/
def Op.fails (c : Consts) (op : Op) (st : Int) : Prop :=
  st ≠ c.SDB_ERR_OK ∧ op.normalized c ≠ some st

instance (c : Consts) (op : Op) (st : Int) : Decidable (op.fails c st) :=
  inferInstanceAs (Decidable (_ ∧ _))

/-- The state right after the call on the collection reference that starts an
attempt of the operation (`query` passes the cursor of the handle to it). -/
def Op.called (r : Remote) (op : Op) (s : State) : State :=
  match op with
  | .query => (cl_query_cursor r s).2
  | _ => (cl_call r op.method s).2

/-- The state after an attempt in which every call succeeded. -/
def Op.succeeded (r : Remote) (op : Op) (s : State) : State :=
  match op with
  | .query_one => (op.called r s).log .cursor_tmp_next
  | _ => op.called r s

/-- The state after an attempt whose call on the collection reference failed
and after the reads of the `error` block that follow a network error: the
transaction flag is read, then `connect` is called. -/
def Op.retried (r : Remote) (op : Op) (s : State) : State :=
  ((op.called r s).log .is_transaction_on).log .connect

/-- One pass of an operation from the label `retry` to the test that jumps to
`error`: the value of `rc` at that test and the state. -/
def attempt (c : Consts) (r : Remote) : Op → State → Int × State
  | .query, s => cl_query_cursor r s
  | .query_one, s =>
    let (rc, s) := cl_call r .query s
    if rc ≠ c.SDB_ERR_OK then (rc, s) else fetch r .cursor_tmp_next s
  | .create_index, s =>
    let (rc, s) := cl_call r .createIndex s
    (if c.SDB_IXM_REDEF = rc then c.SDB_ERR_OK else rc, s)
  | .drop_index, s =>
    let (rc, s) := cl_call r .dropIndex s
    (if c.SDB_IXM_NOTEXIST = rc then c.SDB_ERR_OK else rc, s)
  | .drop, s =>
    let (rc, s) := cl_call r .drop s
    (if rc ≠ c.SDB_ERR_OK then (if c.SDB_DMS_NOTEXIST = rc then c.SDB_ERR_OK else rc) else rc, s)
  | .insert, s => cl_call r .insert s
  | .upsert, s => cl_call r .upsert s
  | .update, s => cl_call r .update s
  | .del, s => cl_call r .del s
  | .truncate, s => cl_call r .truncate s
  | .get_count, s => cl_call r .getCount s

/-- The control shape the eleven operations share, over `attempt`.  It is shown
equal to each source function in `run_eq_retry_loop`. -/
def retry_loop (c : Consts) (r : Remote) (op : Op) : Nat → State → Int × State
  | retry_times, s =>
    let (rc, s) := attempt c r op s
    if rc ≠ c.SDB_ERR_OK then
      if c.IS_SDB_NET_ERR rc then
        let (is_transaction, s) := conn_is_transaction_on r s
        let (crc, s) := conn_connect r s
        if 0 = crc ∧ !is_transaction then
          match retry_times with
          | n + 1 => retry_loop c r op n s
          | 0 => convert_and_return c rc s
        else convert_and_return c rc s
      else convert_and_return c rc s
    else (rc, s)

/-- A concrete choice of the constants, used to evaluate the definitions: the
status values of the SequoiaDB client (`SDB_NETWORK` = -15, `SDB_DMS_EOC` = -29,
...), `HA_ERR_END_OF_FILE` = 137 of the MySQL handler interface, a
classification of `SDB_NETWORK`, -16 (`SDB_NETWORK_CLOSE`) and
`SDB_NOT_CONNECTED` as network errors, and a translation that moves the
negative client codes into a range of their own. -/
def sdbConsts : Consts :=
  { SDB_ERR_OK := 0
    SDB_ERR_INVALID_ARG := 30008
    SDB_NETWORK := -15
    SDB_NOT_CONNECTED := -64
    SDB_DMS_EOC := -29
    SDB_DMS_NOTEXIST := -23
    SDB_IXM_REDEF := -247
    SDB_IXM_NOTEXIST := -47
    HA_ERR_END_OF_FILE := 137
    SDB_CS_NAME_MAX_SIZE := 127
    SDB_CL_NAME_MAX_SIZE := 127
    IS_SDB_NET_ERR := fun rc => rc == -15 || rc == -16 || rc == -64
    convert_sdb_code := fun rc => if rc < 0 then 50000 + rc else rc }

/-- A remote whose calls all succeed and whose connection has no transaction. -/
def Remote.ok : Remote :=
  { cl_status := fun _ => 0
    query_cursor := fun k => k + 1
    fetch_status := fun _ => 0
    transaction_on := fun _ => false
    connect_status := fun _ => 0
    cs_status := fun _ => 0
    getcl_status := fun _ => 0
    collection_ref := fun k => k + 1 }

/-- A bound handle: the state after `init(conn, "sales", "orders")` succeeded on
a connection of thread 7. -/
def State.bound : State :=
  (init sdbConsts Remote.ok (some ⟨7⟩) (some "sales".toList) (some "orders".toList)
    State.fresh).2

/-- A remote whose collection reference fails with `SDB_NETWORK` (-15) on every
call while the connection reports an active transaction. -/
def Remote.net_in_transaction : Remote :=
  { Remote.ok with cl_status := fun _ => -15, transaction_on := fun _ => true }

/-- A remote whose collection reference fails with `SDB_NETWORK` (-15) on every
call; no transaction, every reconnect succeeds. -/
def Remote.net_always : Remote :=
  { Remote.ok with cl_status := fun _ => -15 }

/-- A remote whose collection reference fails with `SDB_NETWORK` (-15) on its
first two calls and succeeds afterwards; no transaction, every reconnect
succeeds. -/
def Remote.net_twice : Remote :=
  { Remote.ok with cl_status := fun k => if k < 2 then -15 else 0 }

/-- A remote whose queries succeed with an empty result: every cursor fetch
reports `SDB_DMS_EOC` (-29). -/
def Remote.empty_result : Remote :=
  { Remote.ok with fetch_status := fun _ => -29 }

/-- A remote whose collection reference reports `SDB_IXM_REDEF` (-247). -/
def Remote.index_redef : Remote :=
  { Remote.ok with cl_status := fun _ => -247 }

/-- A remote whose collection reference reports `SDB_IXM_NOTEXIST` (-47). -/
def Remote.index_notexist : Remote :=
  { Remote.ok with cl_status := fun _ => -47 }

/-- A remote whose collection reference reports `SDB_DMS_NOTEXIST` (-23). -/
def Remote.collection_notexist : Remote :=
  { Remote.ok with cl_status := fun _ => -23 }

/-- The two resolution calls of one pass of `re_init`, from the label `retry` to
the test that jumps to `error`: the value of `rc` at that test and the state. -/
def resolve (c : Consts) (r : Remote) (s : State) : Int × State :=
  let (rc, s) := getCollectionSpace r s
  if rc ≠ c.SDB_ERR_OK then (rc, s) else getCollection r s

/-- The status that the most recent remote call returned: the last call on the
collection reference, cursor fetch, `getCollectionSpace` or `getCollection` in
the history (most recent first).  Reads of the transaction flag, `connect` and
`convert_sdb_code` are passed over. -/
def last_remote_status (r : Remote) : List Event → Option Int
  | [] => none
  | .cl _ :: t => some (r.cl_status (t.countP Event.is_cl))
  | .cursor_current :: t => some (r.fetch_status (t.countP Event.is_fetch))
  | .cursor_next :: t => some (r.fetch_status (t.countP Event.is_fetch))
  | .cursor_tmp_next :: t => some (r.fetch_status (t.countP Event.is_fetch))
  | .getCollectionSpace :: t => some (r.cs_status (t.count .getCollectionSpace))
  | .getCollection :: t => some (r.getcl_status (t.count .getCollection))
  | .is_transaction_on :: t => last_remote_status r t
  | .connect :: t => last_remote_status r t
  | .convert_sdb_code :: t => last_remote_status r t

/-- A remote whose collection reference fails with -6 (`SDB_INVALIDARG` of the
client), a status that is not a network error. -/
def Remote.other_error : Remote :=
  { Remote.ok with cl_status := fun _ => -6 }

/-- A remote whose collection reference fails with `SDB_NETWORK` (-15) while
every reconnect fails with `SDB_NOT_CONNECTED` (-64); no transaction. -/
def Remote.net_no_reconnect : Remote :=
  { Remote.ok with cl_status := fun _ => -15, connect_status := fun _ => -64 }

/-- A remote whose collection reference fails with `SDB_NETWORK` (-15) on the
first call and reports `st` on the following ones; no transaction, every
reconnect succeeds. -/
def Remote.net_then (st : Int) : Remote :=
  { Remote.ok with cl_status := fun k => if k < 1 then -15 else st }

/-- A remote on which `getCollectionSpace` succeeds and `getCollection` fails
with `SDB_NETWORK` (-15) every time; no transaction, every reconnect succeeds. -/
def Remote.collection_unreachable : Remote :=
  { Remote.ok with getcl_status := fun _ => -15 }

/-- A remote on which `getCollection` fails with `SDB_NETWORK` (-15) every time
while the connection reports an active transaction. -/
def Remote.collection_unreachable_in_transaction : Remote :=
  { Remote.ok with getcl_status := fun _ => -15, transaction_on := fun _ => true }

/-- Number of remote calls made through the collection reference and the
cursors: the calls on the collection reference and the cursor fetches. -/
def State.remote_calls (s : State) : Nat := s.cl_calls + s.fetches

/-- An attempt of the operation fails with a network-classified status: `rc` is
not `SDB_ERR_OK` at the test that jumps to `error`, and `IS_SDB_NET_ERR(rc)`
holds there.  For `query_one` the status may come from `cl.query` or from the
fetch on the temporary cursor. -/
def Op.net_fault (c : Consts) (r : Remote) (op : Op) (s : State) : Prop :=
  (attempt c r op s).1 ≠ c.SDB_ERR_OK ∧ c.IS_SDB_NET_ERR (attempt c r op s).1 = true

instance (c : Consts) (r : Remote) (op : Op) (s : State) : Decidable (op.net_fault c r s) :=
  inferInstanceAs (Decidable (_ ∧ _))

/-- The state in which the next attempt starts after an attempt that is
retried: the calls of the attempt, the read of the transaction flag and the
reconnect have been made. -/
def Op.next_attempt (c : Consts) (r : Remote) (op : Op) (s : State) : State :=
  ((attempt c r op s).2.log .is_transaction_on).log .connect

/-- A remote whose cursor fetches fail with `SDB_NETWORK` (-15) the first two
times and succeed afterwards, while every call on the collection reference
succeeds; no transaction, every reconnect succeeds. -/
def Remote.fetch_net_twice : Remote :=
  { Remote.ok with fetch_status := fun k => if k < 2 then -15 else 0 }

/-! ## The source functions and the shared control shape -/

theorem query_from_eq (c : Consts) (r : Remote) (n : Nat) (s : State) :
    query_from c r n s = retry_loop c r .query n s := by
  induction n generalizing s with
  | zero => rw [query_from, retry_loop]; simp only [attempt]
  | succ n ih => rw [query_from, retry_loop]; simp only [attempt, ih]

theorem query_one_from_eq (c : Consts) (r : Remote) (n : Nat) (s : State) :
    query_one_from c r n s = retry_loop c r .query_one n s := by
  induction n generalizing s with
  | zero => rw [query_one_from, retry_loop]; simp only [attempt]
  | succ n ih => rw [query_one_from, retry_loop]; simp only [attempt, ih]

theorem insert_from_eq (c : Consts) (r : Remote) (n : Nat) (s : State) :
    insert_from c r n s = retry_loop c r .insert n s := by
  induction n generalizing s with
  | zero => rw [insert_from, retry_loop]; simp only [attempt]
  | succ n ih => rw [insert_from, retry_loop]; simp only [attempt, ih]

theorem upsert_from_eq (c : Consts) (r : Remote) (n : Nat) (s : State) :
    upsert_from c r n s = retry_loop c r .upsert n s := by
  induction n generalizing s with
  | zero => rw [upsert_from, retry_loop]; simp only [attempt]
  | succ n ih => rw [upsert_from, retry_loop]; simp only [attempt, ih]

theorem update_from_eq (c : Consts) (r : Remote) (n : Nat) (s : State) :
    update_from c r n s = retry_loop c r .update n s := by
  induction n generalizing s with
  | zero => rw [update_from, retry_loop]; simp only [attempt]
  | succ n ih => rw [update_from, retry_loop]; simp only [attempt, ih]

theorem del_from_eq (c : Consts) (r : Remote) (n : Nat) (s : State) :
    del_from c r n s = retry_loop c r .del n s := by
  induction n generalizing s with
  | zero => rw [del_from, retry_loop]; simp only [attempt]
  | succ n ih => rw [del_from, retry_loop]; simp only [attempt, ih]

theorem create_index_from_eq (c : Consts) (r : Remote) (n : Nat) (s : State) :
    create_index_from c r n s = retry_loop c r .create_index n s := by
  induction n generalizing s with
  | zero => rw [create_index_from, retry_loop]; simp only [attempt]
  | succ n ih => rw [create_index_from, retry_loop]; simp only [attempt, ih]

theorem drop_index_from_eq (c : Consts) (r : Remote) (n : Nat) (s : State) :
    drop_index_from c r n s = retry_loop c r .drop_index n s := by
  induction n generalizing s with
  | zero => rw [drop_index_from, retry_loop]; simp only [attempt]
  | succ n ih => rw [drop_index_from, retry_loop]; simp only [attempt, ih]

theorem truncate_from_eq (c : Consts) (r : Remote) (n : Nat) (s : State) :
    truncate_from c r n s = retry_loop c r .truncate n s := by
  induction n generalizing s with
  | zero => rw [truncate_from, retry_loop]; simp only [attempt]
  | succ n ih => rw [truncate_from, retry_loop]; simp only [attempt, ih]

theorem drop_from_eq (c : Consts) (r : Remote) (n : Nat) (s : State) :
    drop_from c r n s = retry_loop c r .drop n s := by
  induction n generalizing s with
  | zero =>
    rw [drop_from, retry_loop]
    simp only [attempt]
    by_cases h1 : (cl_call r .drop s).1 = c.SDB_ERR_OK
    · simp [h1]
    · by_cases h2 : c.SDB_DMS_NOTEXIST = (cl_call r .drop s).1 <;> simp [h1, h2]
  | succ n ih =>
    rw [drop_from, retry_loop]
    simp only [attempt, ih]
    by_cases h1 : (cl_call r .drop s).1 = c.SDB_ERR_OK
    · simp [h1]
    · by_cases h2 : c.SDB_DMS_NOTEXIST = (cl_call r .drop s).1 <;> simp [h1, h2]

theorem get_count_from_eq (c : Consts) (r : Remote) (n : Nat) (s : State) :
    get_count_from c r n s = retry_loop c r .get_count n s := by
  induction n generalizing s with
  | zero => rw [get_count_from, retry_loop]; simp only [attempt]
  | succ n ih => rw [get_count_from, retry_loop]; simp only [attempt, ih]

/-- Every operation is the shared loop over its own attempt, started with
`retry_times = 2`. -/
theorem run_eq_retry_loop (c : Consts) (r : Remote) (op : Op) (s : State) :
    run c r op s = retry_loop c r op 2 s := by
  cases op
  · exact query_from_eq c r 2 s
  · exact query_one_from_eq c r 2 s
  · exact insert_from_eq c r 2 s
  · exact upsert_from_eq c r 2 s
  · exact update_from_eq c r 2 s
  · exact del_from_eq c r 2 s
  · exact create_index_from_eq c r 2 s
  · exact drop_index_from_eq c r 2 s
  · exact truncate_from_eq c r 2 s
  · exact drop_from_eq c r 2 s
  · exact get_count_from_eq c r 2 s

/-! ## Counting calls -/

@[simp] theorem log_trace (s : State) (e : Event) : (s.log e).trace = e :: s.trace := rfl

@[simp] theorem log_cursor (s : State) (e : Event) : (s.log e).cursor = s.cursor := rfl

@[simp] theorem log_cl_calls (s : State) (e : Event) :
    (s.log e).cl_calls = s.cl_calls + (if e.is_cl then 1 else 0) := by
  simp [State.log, State.cl_calls, List.countP_cons]

@[simp] theorem log_fetches (s : State) (e : Event) :
    (s.log e).fetches = s.fetches + (if e.is_fetch then 1 else 0) := by
  simp [State.log, State.fetches, List.countP_cons]

@[simp] theorem log_connects (s : State) (e : Event) :
    (s.log e).connects = s.connects + (if e = .connect then 1 else 0) := by
  simp [State.log, State.connects, List.count_cons]

@[simp] theorem log_transaction_queries (s : State) (e : Event) :
    (s.log e).transaction_queries
      = s.transaction_queries + (if e = .is_transaction_on then 1 else 0) := by
  simp [State.log, State.transaction_queries, List.count_cons]

@[simp] theorem log_conversions (s : State) (e : Event) :
    (s.log e).conversions = s.conversions + (if e = .convert_sdb_code then 1 else 0) := by
  simp [State.log, State.conversions, List.count_cons]

/-! ## One attempt -/

/-- The state after the reads of the `error` block of an operation: the
transaction flag is read, then `connect` is called. -/
theorem error_block_state (r : Remote) (s : State) :
    (conn_connect r (conn_is_transaction_on r s).2).2
      = (s.log .is_transaction_on).log .connect := rfl

theorem called_trace (r : Remote) (op : Op) (s : State) :
    (op.called r s).trace = .cl op.method :: s.trace := by
  cases op <;> rfl

theorem called_cl_calls (r : Remote) (op : Op) (s : State) :
    (op.called r s).cl_calls = s.cl_calls + 1 := by
  simp [State.cl_calls, called_trace, List.countP_cons, Event.is_cl]

theorem called_fetches (r : Remote) (op : Op) (s : State) :
    (op.called r s).fetches = s.fetches := by
  simp [State.fetches, called_trace, List.countP_cons, Event.is_fetch]

theorem called_connects (r : Remote) (op : Op) (s : State) :
    (op.called r s).connects = s.connects := by
  simp [State.connects, called_trace, List.count_cons]

theorem called_transaction_queries (r : Remote) (op : Op) (s : State) :
    (op.called r s).transaction_queries = s.transaction_queries := by
  simp [State.transaction_queries, called_trace, List.count_cons]

/-- A failing call on the collection reference ends the attempt with its status. -/
theorem attempt_of_fails (c : Consts) (r : Remote) (op : Op) (s : State)
    (h : op.fails c (r.cl_status s.cl_calls)) :
    attempt c r op s = (r.cl_status s.cl_calls, op.called r s) := by
  obtain ⟨h1, h2⟩ := h
  cases op <;>
    simp_all [attempt, Op.called, Op.method, Op.normalized, cl_call, cl_query_cursor, eq_comm]

theorem attempt_of_ok (c : Consts) (r : Remote) (op : Op) (s : State)
    (h : r.cl_status s.cl_calls = c.SDB_ERR_OK)
    (hf : op = .query_one → r.fetch_status s.fetches = c.SDB_ERR_OK) :
    attempt c r op s = (c.SDB_ERR_OK, op.succeeded r s) := by
  cases op <;>
    simp_all [attempt, Op.called, Op.succeeded, Op.method, cl_call, cl_query_cursor, fetch,
      State.fetches, State.log, Event.is_fetch]

/-- The status an operation counts as success ends the attempt with
`SDB_ERR_OK`. -/
theorem attempt_of_normalized (c : Consts) (r : Remote) (op : Op) (s : State)
    (h : op.normalized c = some (r.cl_status s.cl_calls)) :
    attempt c r op s = (c.SDB_ERR_OK, op.called r s) := by
  cases op <;> simp_all [attempt, Op.called, Op.method, Op.normalized, cl_call]

/-! ## One turn of the loop -/

theorem retry_loop_done (c : Consts) (r : Remote) (op : Op) (n : Nat) (s : State)
    (h : (attempt c r op s).1 = c.SDB_ERR_OK) :
    retry_loop c r op n s = attempt c r op s := by
  rw [retry_loop]
  generalize attempt c r op s = p at h ⊢
  obtain ⟨rc, s1⟩ := p
  simp only at h
  simp [h]

theorem retry_loop_other (c : Consts) (r : Remote) (op : Op) (n : Nat) (s : State)
    (h : (attempt c r op s).1 ≠ c.SDB_ERR_OK)
    (hnet : c.IS_SDB_NET_ERR (attempt c r op s).1 = false) :
    retry_loop c r op n s = convert_and_return c (attempt c r op s).1 (attempt c r op s).2 := by
  rw [retry_loop]
  generalize attempt c r op s = p at h hnet ⊢
  obtain ⟨rc, s1⟩ := p
  simp only at h hnet
  simp [h, hnet]

theorem retry_loop_again (c : Consts) (r : Remote) (op : Op) (n : Nat) (s : State)
    (h : (attempt c r op s).1 ≠ c.SDB_ERR_OK)
    (hnet : c.IS_SDB_NET_ERR (attempt c r op s).1 = true)
    (htx : r.transaction_on (attempt c r op s).2.transaction_queries = false)
    (hco : r.connect_status (attempt c r op s).2.connects = 0) :
    retry_loop c r op (n + 1) s
      = retry_loop c r op n (((attempt c r op s).2.log .is_transaction_on).log .connect) := by
  rw [retry_loop]
  generalize attempt c r op s = p at h hnet htx hco ⊢
  obtain ⟨rc, s1⟩ := p
  simp only at h hnet htx hco
  simp [h, hnet, htx, hco, conn_is_transaction_on, conn_connect]

theorem retry_loop_give_up (c : Consts) (r : Remote) (op : Op) (n : Nat) (s : State)
    (h : (attempt c r op s).1 ≠ c.SDB_ERR_OK)
    (hnet : c.IS_SDB_NET_ERR (attempt c r op s).1 = true)
    (hstop : r.transaction_on (attempt c r op s).2.transaction_queries = true
      ∨ r.connect_status (attempt c r op s).2.connects ≠ 0 ∨ n = 0) :
    retry_loop c r op n s
      = convert_and_return c (attempt c r op s).1
          (((attempt c r op s).2.log .is_transaction_on).log .connect) := by
  rw [retry_loop]
  generalize attempt c r op s = p at h hnet hstop ⊢
  obtain ⟨rc, s1⟩ := p
  simp only at h hnet hstop
  rcases hstop with h1 | h1 | h1
  · simp [h, hnet, h1, conn_is_transaction_on, conn_connect]
  · have h2 : ¬ (0 = r.connect_status s1.connects) := fun e => h1 e.symm
    simp [h, hnet, h2, conn_is_transaction_on, conn_connect]
  · subst h1
    simp [h, hnet, conn_is_transaction_on, conn_connect]

/-! ## Turns of the loop in terms of the statuses of the remote -/

theorem succeeded_trace (r : Remote) (op : Op) (s : State) :
    (op.succeeded r s).trace
      = (if op = .query_one then [Event.cursor_tmp_next] else []) ++ .cl op.method :: s.trace := by
  cases op <;> simp [Op.succeeded, called_trace, Op.method]

theorem succeeded_cl_calls (r : Remote) (op : Op) (s : State) :
    (op.succeeded r s).cl_calls = s.cl_calls + 1 := by
  cases op <;> simp [Op.succeeded, called_cl_calls, Event.is_cl]

theorem succeeded_connects (r : Remote) (op : Op) (s : State) :
    (op.succeeded r s).connects = s.connects := by
  cases op <;> simp [Op.succeeded, called_connects]

theorem succeeded_transaction_queries (r : Remote) (op : Op) (s : State) :
    (op.succeeded r s).transaction_queries = s.transaction_queries := by
  cases op <;> simp [Op.succeeded, called_transaction_queries]

theorem succeeded_fetches (r : Remote) (op : Op) (s : State) :
    (op.succeeded r s).fetches = s.fetches + (if op = .query_one then 1 else 0) := by
  cases op <;> simp [Op.succeeded, called_fetches, Event.is_fetch]

theorem retried_trace (r : Remote) (op : Op) (s : State) :
    (op.retried r s).trace = .connect :: .is_transaction_on :: .cl op.method :: s.trace := by
  simp [Op.retried, called_trace]

theorem retried_cl_calls (r : Remote) (op : Op) (s : State) :
    (op.retried r s).cl_calls = s.cl_calls + 1 := by
  simp [Op.retried, called_cl_calls, Event.is_cl]

theorem retried_fetches (r : Remote) (op : Op) (s : State) :
    (op.retried r s).fetches = s.fetches := by
  simp [Op.retried, called_fetches, Event.is_fetch]

theorem retried_connects (r : Remote) (op : Op) (s : State) :
    (op.retried r s).connects = s.connects + 1 := by
  simp [Op.retried, called_connects]

theorem retried_transaction_queries (r : Remote) (op : Op) (s : State) :
    (op.retried r s).transaction_queries = s.transaction_queries + 1 := by
  simp [Op.retried, called_transaction_queries]

/-- Every call of the attempt succeeds: the loop returns `SDB_ERR_OK` at once. -/
theorem ok_step (c : Consts) (r : Remote) (op : Op) (n : Nat) (s : State)
    (h : r.cl_status s.cl_calls = c.SDB_ERR_OK)
    (hf : op = .query_one → r.fetch_status s.fetches = c.SDB_ERR_OK) :
    retry_loop c r op n s = (c.SDB_ERR_OK, op.succeeded r s) := by
  have e := attempt_of_ok c r op s h hf
  rw [retry_loop_done c r op n s (by rw [e]), e]

/-- The call reports the status the operation counts as success: the loop
returns `SDB_ERR_OK` at once. -/
theorem normalized_step (c : Consts) (r : Remote) (op : Op) (n : Nat) (s : State)
    (h : op.normalized c = some (r.cl_status s.cl_calls)) :
    retry_loop c r op n s = (c.SDB_ERR_OK, op.called r s) := by
  have e := attempt_of_normalized c r op s h
  rw [retry_loop_done c r op n s (by rw [e]), e]

/-- The call fails with a network error, no transaction is reported and the
reconnect succeeds: the loop starts over with one retry less. -/
theorem retry_step (c : Consts) (r : Remote) (op : Op) (n : Nat) (s : State)
    (h : op.fails c (r.cl_status s.cl_calls))
    (hnet : c.IS_SDB_NET_ERR (r.cl_status s.cl_calls) = true)
    (htx : r.transaction_on s.transaction_queries = false)
    (hco : r.connect_status s.connects = 0) :
    retry_loop c r op (n + 1) s = retry_loop c r op n (op.retried r s) := by
  have e := attempt_of_fails c r op s h
  have := retry_loop_again c r op n s (by rw [e]; exact h.1) (by rw [e]; exact hnet)
    (by rw [e]; simpa [called_transaction_queries] using htx)
    (by rw [e]; simpa [called_connects, called_transaction_queries] using hco)
  rw [this, e]; rfl

/-- The call fails with a network error and a transaction is reported, or the
reconnect fails, or no retry is left: the loop returns the translated status,
after the flag was read and `connect` was called. -/
theorem give_up_step (c : Consts) (r : Remote) (op : Op) (n : Nat) (s : State)
    (h : op.fails c (r.cl_status s.cl_calls))
    (hnet : c.IS_SDB_NET_ERR (r.cl_status s.cl_calls) = true)
    (hstop : r.transaction_on s.transaction_queries = true
      ∨ r.connect_status s.connects ≠ 0 ∨ n = 0) :
    retry_loop c r op n s
      = (c.convert_sdb_code (r.cl_status s.cl_calls),
          (op.retried r s).log .convert_sdb_code) := by
  have e := attempt_of_fails c r op s h
  have := retry_loop_give_up c r op n s (by rw [e]; exact h.1) (by rw [e]; exact hnet)
    (by rw [e]; simpa [called_connects, called_transaction_queries] using hstop)
  rw [this, e]; rfl

/-- The call fails with a status that is not a network error: the loop returns
the translated status without reading the flag or reconnecting. -/
theorem other_step (c : Consts) (r : Remote) (op : Op) (n : Nat) (s : State)
    (h : op.fails c (r.cl_status s.cl_calls))
    (hnet : c.IS_SDB_NET_ERR (r.cl_status s.cl_calls) = false) :
    retry_loop c r op n s
      = (c.convert_sdb_code (r.cl_status s.cl_calls),
          (op.called r s).log .convert_sdb_code) := by
  have e := attempt_of_fails c r op s h
  have := retry_loop_other c r op n s (by rw [e]; exact h.1) (by rw [e]; exact hnet)
  rw [this, e]; rfl

theorem attempt_cl_calls (c : Consts) (r : Remote) (op : Op) (s : State) :
    (attempt c r op s).2.cl_calls = s.cl_calls + 1 := by
  cases op <;> simp [attempt, cl_call, cl_query_cursor, fetch, State.cl_calls, State.log,
    Event.is_cl, List.countP_cons]
  split <;> simp [Event.is_cl, List.countP_cons]

theorem attempt_connects (c : Consts) (r : Remote) (op : Op) (s : State) :
    (attempt c r op s).2.connects = s.connects := by
  cases op <;> simp [attempt, cl_call, cl_query_cursor, fetch, State.connects, State.log,
    List.count_cons]
  split <;> simp [List.count_cons]

theorem attempt_transaction_queries (c : Consts) (r : Remote) (op : Op) (s : State) :
    (attempt c r op s).2.transaction_queries = s.transaction_queries := by
  cases op <;> simp [attempt, cl_call, cl_query_cursor, fetch, State.transaction_queries,
    State.log, List.count_cons]
  split <;> simp [List.count_cons]

/-! ## Network errors while a transaction is active -/

/-- C1, as the code behaves: when the connection reports an active transaction
and the first call on the collection reference fails with a network-classified
status, every retry-wrapped operation returns the translated status, but only
after ONE call of `Sdb_conn::connect`, not zero: the `error` block evaluates
`0 == p_conn->connect()` before it looks at `is_transaction`. -/
theorem net_error_in_transaction_reconnects_once (c : Consts) (r : Remote) (op : Op)
    (s : State)
    (hfail : op.fails c (r.cl_status s.cl_calls))
    (hnet : c.IS_SDB_NET_ERR (r.cl_status s.cl_calls) = true)
    (htx : r.transaction_on s.transaction_queries = true) :
    (run c r op s).1 = c.convert_sdb_code (r.cl_status s.cl_calls)
    ∧ (run c r op s).2.connects = s.connects + 1
    ∧ (run c r op s).2.trace
        = .convert_sdb_code :: .connect :: .is_transaction_on :: .cl op.method :: s.trace := by
  rw [run_eq_retry_loop, give_up_step c r op 2 s hfail hnet (Or.inl htx)]
  simp [retried_connects, retried_trace]

/-- C1 at `get_count` on a bound handle: `SDB_NETWORK` inside a transaction is
returned translated, after one call of `connect`. -/
theorem net_error_in_transaction_reconnects_once_witness :
    (run sdbConsts Remote.net_in_transaction .get_count State.bound).1 = 49985
    ∧ (run sdbConsts Remote.net_in_transaction .get_count State.bound).2.connects = 1
    ∧ (run sdbConsts Remote.net_in_transaction .get_count State.bound).2.trace
        = [.convert_sdb_code, .connect, .is_transaction_on, .cl .getCount, .getCollection,
            .getCollectionSpace] :=
  net_error_in_transaction_reconnects_once sdbConsts Remote.net_in_transaction .get_count
    State.bound (by decide) (by decide) (by decide)

/-! ## Two network errors, then success -/

theorem attempt_fetches_other (c : Consts) (r : Remote) (op : Op) (s : State)
    (h : op ≠ .query_one) : (attempt c r op s).2.fetches = s.fetches := by
  cases op <;>
    simp_all [attempt, cl_call, cl_query_cursor, State.fetches, State.log, Event.is_fetch,
      List.countP_cons]

theorem attempt_fetches_query_one (c : Consts) (r : Remote) (s : State) :
    s.fetches ≤ (attempt c r .query_one s).2.fetches
    ∧ (attempt c r .query_one s).2.fetches ≤ s.fetches + 1
    ∧ ((attempt c r .query_one s).1 = c.SDB_ERR_OK →
        (attempt c r .query_one s).2.fetches = s.fetches + 1) := by
  by_cases h : r.cl_status s.cl_calls = c.SDB_ERR_OK
  · simp [attempt, cl_call, fetch, h, Event.is_fetch]
  · simp [attempt, cl_call, fetch, h, Event.is_fetch]

/-- For the operations with one remote call per attempt, an attempt fails with a
network-classified status exactly when the call on the collection reference
does. -/
theorem net_fault_iff (c : Consts) (r : Remote) (op : Op) (s : State)
    (h : op ≠ .query_one) :
    op.net_fault c r s ↔
      (op.fails c (r.cl_status s.cl_calls)
        ∧ c.IS_SDB_NET_ERR (r.cl_status s.cl_calls) = true) := by
  constructor
  · intro hf
    have hfails : op.fails c (r.cl_status s.cl_calls) := by
      by_contra hn
      have hn2 : r.cl_status s.cl_calls = c.SDB_ERR_OK
          ∨ op.normalized c = some (r.cl_status s.cl_calls) := by
        by_cases h0 : r.cl_status s.cl_calls = c.SDB_ERR_OK
        · exact Or.inl h0
        · right
          by_contra h3
          exact hn ⟨h0, h3⟩
      rcases hn2 with h0 | h0
      · exact hf.1 (by rw [attempt_of_ok c r op s h0 (fun hq => absurd hq h)])
      · exact hf.1 (by rw [attempt_of_normalized c r op s h0])
    have e := attempt_of_fails c r op s hfails
    unfold Op.net_fault at hf
    rw [e] at hf
    exact ⟨hfails, hf.2⟩
  · intro hf
    have e := attempt_of_fails c r op s hf.1
    unfold Op.net_fault
    rw [e]
    exact ⟨hf.1.1, hf.2⟩

/-- An attempt of `query_one` fails with a network-classified status when
`cl.query` does, or when `cl.query` succeeds and the fetch on the temporary
cursor does. -/
theorem net_fault_query_one_iff (c : Consts) (r : Remote) (s : State) :
    Op.net_fault c r .query_one s ↔
      ((r.cl_status s.cl_calls ≠ c.SDB_ERR_OK
          ∧ c.IS_SDB_NET_ERR (r.cl_status s.cl_calls) = true)
        ∨ (r.cl_status s.cl_calls = c.SDB_ERR_OK
          ∧ r.fetch_status s.fetches ≠ c.SDB_ERR_OK
          ∧ c.IS_SDB_NET_ERR (r.fetch_status s.fetches) = true)) := by
  by_cases h : r.cl_status s.cl_calls = c.SDB_ERR_OK
  · simp [Op.net_fault, attempt, cl_call, fetch, h, Event.is_fetch]
  · simp [Op.net_fault, attempt, cl_call, fetch, h]

/-- C2, as stated, fails for `query_one`: on a bound handle with no transaction
and successful reconnects, when `cl.query` fails with `SDB_NETWORK` on attempts
1 and 2 and attempt 3 succeeds, `query_one` returns `SDB_ERR_OK` after 4 remote
calls (3 `cl.query` and 1 fetch), not 3; when instead the fetch on the temporary
cursor fails with `SDB_NETWORK` on attempts 1 and 2, it makes 6 (3 `cl.query`
and 3 fetches).  Both runs make 2 reconnect attempts. -/
theorem query_one_makes_more_remote_calls :
    Op.net_fault sdbConsts Remote.net_twice .query_one State.bound
    ∧ Op.net_fault sdbConsts Remote.net_twice .query_one
        (Op.next_attempt sdbConsts Remote.net_twice .query_one State.bound)
    ∧ (query_one sdbConsts Remote.net_twice State.bound).1 = sdbConsts.SDB_ERR_OK
    ∧ (query_one sdbConsts Remote.net_twice State.bound).2.connects = 2
    ∧ (query_one sdbConsts Remote.net_twice State.bound).2.remote_calls = 4
    ∧ (query_one sdbConsts Remote.net_twice State.bound).2.history
        = [.getCollectionSpace, .getCollection, .cl .query, .is_transaction_on, .connect,
            .cl .query, .is_transaction_on, .connect, .cl .query, .cursor_tmp_next]
    ∧ Op.net_fault sdbConsts Remote.fetch_net_twice .query_one State.bound
    ∧ Op.net_fault sdbConsts Remote.fetch_net_twice .query_one
        (Op.next_attempt sdbConsts Remote.fetch_net_twice .query_one State.bound)
    ∧ (query_one sdbConsts Remote.fetch_net_twice State.bound).1 = sdbConsts.SDB_ERR_OK
    ∧ (query_one sdbConsts Remote.fetch_net_twice State.bound).2.connects = 2
    ∧ (query_one sdbConsts Remote.fetch_net_twice State.bound).2.remote_calls = 6
    ∧ (query_one sdbConsts Remote.fetch_net_twice State.bound).2.history
        = [.getCollectionSpace, .getCollection,
            .cl .query, .cursor_tmp_next, .is_transaction_on, .connect,
            .cl .query, .cursor_tmp_next, .is_transaction_on, .connect,
            .cl .query, .cursor_tmp_next] := by
  decide

/-- C2, amended: for every retry-wrapped operation, if no transaction is active,
every reconnect succeeds, and the attempt fails with a network-classified
status on attempts 1 and 2 and succeeds on attempt 3, the operation returns
`SDB_ERR_OK` after exactly 3 calls on the collection reference and exactly 2
calls of `Sdb_conn::connect`.  For the ten operations other than `query_one`
these 3 calls are all their remote calls.  An attempt of `query_one` is
`cl.query` followed by a fetch on its temporary cursor, a network fault of
either counts, and `query_one` makes in addition one fetch in every attempt
whose `cl.query` succeeded: between 1 and 3 fetches, so 4 to 6 remote calls. -/
theorem net_error_twice_then_success (c : Consts) (r : Remote) (op : Op) (s : State)
    (htx : ∀ k, r.transaction_on k = false)
    (hco : ∀ k, r.connect_status k = 0)
    (hfault1 : op.net_fault c r s)
    (hfault2 : op.net_fault c r (op.next_attempt c r s))
    (hok3 : (attempt c r op (op.next_attempt c r (op.next_attempt c r s))).1
      = c.SDB_ERR_OK) :
    (run c r op s).1 = c.SDB_ERR_OK
    ∧ (run c r op s).2.cl_calls = s.cl_calls + 3
    ∧ (run c r op s).2.connects = s.connects + 2
    ∧ (op ≠ .query_one →
        (run c r op s).2.fetches = s.fetches
        ∧ (run c r op s).2.remote_calls = s.remote_calls + 3)
    ∧ (op = .query_one →
        s.fetches + 1 ≤ (run c r op s).2.fetches
        ∧ (run c r op s).2.fetches ≤ s.fetches + 3
        ∧ s.remote_calls + 4 ≤ (run c r op s).2.remote_calls
        ∧ (run c r op s).2.remote_calls ≤ s.remote_calls + 6) := by
  have e : run c r op s
      = attempt c r op (op.next_attempt c r (op.next_attempt c r s)) := by
    rw [run_eq_retry_loop]
    exact (retry_loop_again c r op 1 s hfault1.1 hfault1.2 (htx _) (hco _)).trans
      ((retry_loop_again c r op 0 (op.next_attempt c r s) hfault2.1 hfault2.2 (htx _)
        (hco _)).trans (retry_loop_done c r op 0 _ hok3))
  have hcl : (run c r op s).2.cl_calls = s.cl_calls + 3 := by
    rw [e, attempt_cl_calls]
    simp [Op.next_attempt, attempt_cl_calls, Event.is_cl]
  have hcon : (run c r op s).2.connects = s.connects + 2 := by
    rw [e, attempt_connects]
    simp [Op.next_attempt, attempt_connects]
  refine ⟨by rw [e, hok3], hcl, hcon, ?_, ?_⟩
  · intro hop
    have hf : (run c r op s).2.fetches = s.fetches := by
      rw [e, attempt_fetches_other c r op _ hop]
      simp [Op.next_attempt, attempt_fetches_other c r op _ hop, Event.is_fetch]
    exact ⟨hf, by simp only [State.remote_calls, hf, hcl]; omega⟩
  · intro hop
    subst hop
    have a1 := attempt_fetches_query_one c r s
    have a2 := attempt_fetches_query_one c r (Op.next_attempt c r .query_one s)
    have a3 := attempt_fetches_query_one c r
      (Op.next_attempt c r .query_one (Op.next_attempt c r .query_one s))
    have n1 : (Op.next_attempt c r .query_one s).fetches
        = (attempt c r .query_one s).2.fetches := by
      simp [Op.next_attempt, Event.is_fetch]
    have n2 : (Op.next_attempt c r .query_one (Op.next_attempt c r .query_one s)).fetches
        = (attempt c r .query_one (Op.next_attempt c r .query_one s)).2.fetches := by
      simp [Op.next_attempt, Event.is_fetch]
    have a4 := a3.2.2 hok3
    simp only [State.remote_calls, hcl]
    rw [e]
    omega

/-- C2 (amended) on a bound handle: `insert` with `SDB_NETWORK` from `cl.insert`
on the first two attempts makes 3 remote calls; `query_one` with `SDB_NETWORK`
from the fetch on the first two attempts makes 3 `cl.query` calls and 3
fetches.  Both return `SDB_ERR_OK` after 2 reconnect attempts. -/
theorem net_error_twice_then_success_witness :
    ((run sdbConsts Remote.net_twice .insert State.bound).1 = 0
      ∧ (run sdbConsts Remote.net_twice .insert State.bound).2.cl_calls = 3
      ∧ (run sdbConsts Remote.net_twice .insert State.bound).2.connects = 2
      ∧ (run sdbConsts Remote.net_twice .insert State.bound).2.remote_calls = 3)
    ∧ ((run sdbConsts Remote.fetch_net_twice .query_one State.bound).1 = 0
      ∧ (run sdbConsts Remote.fetch_net_twice .query_one State.bound).2.cl_calls = 3
      ∧ (run sdbConsts Remote.fetch_net_twice .query_one State.bound).2.connects = 2
      ∧ (run sdbConsts Remote.fetch_net_twice .query_one State.bound).2.fetches = 3) :=
  have hi := net_error_twice_then_success sdbConsts Remote.net_twice .insert State.bound
    (fun _ => rfl) (fun _ => rfl) (by decide) (by decide) (by decide)
  have hq := net_error_twice_then_success sdbConsts Remote.fetch_net_twice .query_one
    State.bound (fun _ => rfl) (fun _ => rfl) (by decide) (by decide) (by decide)
  ⟨⟨hi.1, hi.2.1, hi.2.2.1, (hi.2.2.2.1 (by decide)).2⟩,
    ⟨hq.1, hq.2.1, hq.2.2.1, by decide⟩⟩

/-! ## An active transaction forbids the retry -/

/-- C3: if the connection reports an active transaction whenever it is asked,
then for any statuses of the remote every retry-wrapped operation issues exactly
one call on the collection reference (it never retries), and when that call
fails with a network-classified status the result is `convert_sdb_code` of that
status. -/
theorem active_transaction_single_call (c : Consts) (r : Remote) (op : Op) (s : State)
    (htx : ∀ k, r.transaction_on k = true) :
    (run c r op s).2.cl_calls = s.cl_calls + 1
    ∧ (op.fails c (r.cl_status s.cl_calls) →
        c.IS_SDB_NET_ERR (r.cl_status s.cl_calls) = true →
        (run c r op s).1 = c.convert_sdb_code (r.cl_status s.cl_calls)) := by
  rw [run_eq_retry_loop]
  constructor
  · by_cases h : (attempt c r op s).1 = c.SDB_ERR_OK
    · rw [retry_loop_done c r op 2 s h, attempt_cl_calls]
    · cases hnet : c.IS_SDB_NET_ERR (attempt c r op s).1
      · rw [retry_loop_other c r op 2 s h hnet]
        simp [convert_and_return, attempt_cl_calls, Event.is_cl]
      · rw [retry_loop_give_up c r op 2 s h hnet (Or.inl (htx _))]
        simp [convert_and_return, attempt_cl_calls, Event.is_cl]
  · intro hfail hnet
    rw [give_up_step c r op 2 s hfail hnet (Or.inl (htx _))]

/-- C3 at `update` on a bound handle with `SDB_NETWORK` inside a transaction. -/
theorem active_transaction_single_call_witness :
    (run sdbConsts Remote.net_in_transaction .update State.bound).2.cl_calls = 1
    ∧ (run sdbConsts Remote.net_in_transaction .update State.bound).1 = 49985 :=
  ⟨(active_transaction_single_call sdbConsts Remote.net_in_transaction .update State.bound
      (fun _ => rfl)).1,
    (active_transaction_single_call sdbConsts Remote.net_in_transaction .update State.bound
      (fun _ => rfl)).2 (by decide) (by decide)⟩

/-! ## The number of reconnect attempts -/

/-- C4, as the code behaves: when every call on the collection reference fails
with a network-classified status, no transaction is active and every reconnect
succeeds, a retry-wrapped operation calls `Sdb_conn::connect` THREE times, not
at most twice: `0 == p_conn->connect()` is evaluated before
`retry_times-- > 0`, so the third failure reconnects although no retry is left. -/
theorem net_errors_reconnect_three_times (c : Consts) (r : Remote) (op : Op) (s : State)
    (hfail : ∀ k, op.fails c (r.cl_status k))
    (hnet : ∀ k, c.IS_SDB_NET_ERR (r.cl_status k) = true)
    (htx : ∀ k, r.transaction_on k = false)
    (hco : ∀ k, r.connect_status k = 0) :
    (run c r op s).1 = c.convert_sdb_code (r.cl_status (s.cl_calls + 2))
    ∧ (run c r op s).2.cl_calls = s.cl_calls + 3
    ∧ (run c r op s).2.connects = s.connects + 3 := by
  rw [run_eq_retry_loop, retry_step c r op 1 s (hfail _) (hnet _) (htx _) (hco _),
    retry_step c r op 0 _ (hfail _) (hnet _) (htx _) (hco _),
    give_up_step c r op 0 _ (hfail _) (hnet _) (Or.inr (Or.inr rfl))]
  simp [retried_cl_calls, retried_connects, Event.is_cl]

/-- C4 at `truncate` on a bound handle with `SDB_NETWORK` on every call. -/
theorem net_errors_reconnect_three_times_witness :
    (run sdbConsts Remote.net_always .truncate State.bound).1 = 49985
    ∧ (run sdbConsts Remote.net_always .truncate State.bound).2.cl_calls = 3
    ∧ (run sdbConsts Remote.net_always .truncate State.bound).2.connects = 3 :=
  net_errors_reconnect_three_times sdbConsts Remote.net_always .truncate State.bound
    (fun _ => (by decide : Op.fails sdbConsts .truncate (-15))) (fun _ => rfl) (fun _ => rfl)
    (fun _ => rfl)

/-! ## The end of a result set -/

/-- C5, as the code behaves: when the query of `query_one` succeeds and the first
fetch on the temporary cursor reports `SDB_DMS_EOC` (not a network error),
`query_one` returns `convert_sdb_code SDB_DMS_EOC`, a translated error, and not
`HA_ERR_END_OF_FILE`: unlike `next` and `current` it has no
`SDB_DMS_EOC == rc` test before the `error` block. -/
theorem query_one_empty_result_translated (c : Consts) (r : Remote) (s : State)
    (hq : r.cl_status s.cl_calls = c.SDB_ERR_OK)
    (hf : r.fetch_status s.fetches = c.SDB_DMS_EOC)
    (heoc : c.SDB_DMS_EOC ≠ c.SDB_ERR_OK)
    (hnet : c.IS_SDB_NET_ERR c.SDB_DMS_EOC = false) :
    query_one c r s
      = (c.convert_sdb_code c.SDB_DMS_EOC,
          ((s.log (.cl .query)).log .cursor_tmp_next).log .convert_sdb_code) := by
  rw [query_one, query_one_from]
  simp [cl_call, fetch, hq, hf, heoc, hnet, convert_and_return, Event.is_fetch]

/-- C5 on a bound handle and an empty result set: `query_one` returns 49971,
the translation of `SDB_DMS_EOC`, where `next` returns `HA_ERR_END_OF_FILE`
(137). -/
theorem query_one_empty_result_translated_witness :
    query_one sdbConsts Remote.empty_result State.bound
        = (sdbConsts.convert_sdb_code sdbConsts.SDB_DMS_EOC,
            ((State.bound.log (.cl .query)).log .cursor_tmp_next).log .convert_sdb_code)
    ∧ sdbConsts.convert_sdb_code sdbConsts.SDB_DMS_EOC = 49971
    ∧ sdbConsts.HA_ERR_END_OF_FILE = 137
    ∧ (next sdbConsts Remote.empty_result State.bound).1 = 137 :=
  ⟨query_one_empty_result_translated sdbConsts Remote.empty_result State.bound
      (by decide) (by decide) (by decide) (by decide),
    by decide, by decide, by decide⟩

/-- The result and the calls of `next` for each status of the fetch. -/
theorem next_eq (c : Consts) (r : Remote) (s : State) :
    next c r s
      = if r.fetch_status s.fetches = c.SDB_ERR_OK then (c.SDB_ERR_OK, s.log .cursor_next)
        else
          (c.convert_sdb_code
              (if r.fetch_status s.fetches = c.SDB_DMS_EOC then c.HA_ERR_END_OF_FILE
               else r.fetch_status s.fetches),
            (s.log .cursor_next).log .convert_sdb_code) := by
  by_cases h : r.fetch_status s.fetches = c.SDB_ERR_OK
  · simp [next, fetch, h]
  · simp [next, fetch, h, convert_and_return, eq_comm]

/-- The result and the calls of `current` for each status of the fetch. -/
theorem current_eq (c : Consts) (r : Remote) (s : State) :
    current c r s
      = if r.fetch_status s.fetches = c.SDB_ERR_OK then (c.SDB_ERR_OK, s.log .cursor_current)
        else
          (c.convert_sdb_code
              (if r.fetch_status s.fetches = c.SDB_DMS_EOC then c.HA_ERR_END_OF_FILE
               else r.fetch_status s.fetches),
            (s.log .cursor_current).log .convert_sdb_code) := by
  by_cases h : r.fetch_status s.fetches = c.SDB_ERR_OK
  · simp [current, fetch, h]
  · simp [current, fetch, h, convert_and_return, eq_comm]

/-- A translation that adds a fixed offset `base` to the negative codes maps none
of the codes from `lo` up to `HA_ERR_END_OF_FILE`, provided `lo` lies above
`HA_ERR_END_OF_FILE - base`. -/
theorem shift_translation_apart (c : Consts) (base lo : Int)
    (hshift : ∀ rc, rc < 0 → c.convert_sdb_code rc = base + rc)
    (hlo : c.HA_ERR_END_OF_FILE - base < lo) (st : Int) (h1 : lo ≤ st) (h2 : st < 0) :
    c.convert_sdb_code st ≠ c.HA_ERR_END_OF_FILE := by
  rw [hshift st h2]
  omega

/-- C7, the part that fails: an empty (non-null) scope name or collection name
is not rejected.  With a connection and a remote whose calls succeed, `init`
returns `SDB_ERR_OK`, not `SDB_ERR_INVALID_ARG`, after calling
`getCollectionSpace` and `getCollection`. -/
theorem init_empty_name_reaches_remote :
    (init sdbConsts Remote.ok (some ⟨7⟩) (some []) (some "orders".toList) State.fresh).1
        = sdbConsts.SDB_ERR_OK
    ∧ (init sdbConsts Remote.ok (some ⟨7⟩) (some []) (some "orders".toList) State.fresh).1
        ≠ sdbConsts.SDB_ERR_INVALID_ARG
    ∧ (init sdbConsts Remote.ok (some ⟨7⟩) (some []) (some "orders".toList)
        State.fresh).2.history = [.getCollectionSpace, .getCollection]
    ∧ (init sdbConsts Remote.ok (some ⟨7⟩) (some "sales".toList) (some []) State.fresh).1
        ≠ sdbConsts.SDB_ERR_INVALID_ARG
    ∧ (init sdbConsts Remote.ok (some ⟨7⟩) (some "sales".toList) (some [])
        State.fresh).2.history = [.getCollectionSpace, .getCollection] := by
  decide

/-- C7, amended: `init` returns `SDB_ERR_INVALID_ARG` and leaves the handle as it
was, with no call on the remote or the connection (no `getCollectionSpace`, no
`getCollection`, no `connect`), whenever the connection is null, or the scope
name is null, or the collection name is null. -/
theorem init_null_argument (c : Consts) (r : Remote) (connection : Option Sdb_conn)
    (cs cl : Option (List Char)) (s : State)
    (h : connection = none ∨ cs = none ∨ cl = none) :
    init c r connection cs cl s = (c.SDB_ERR_INVALID_ARG, s) := by
  rcases h with h | h | h <;> subst h
  · rfl
  · cases connection <;> rfl
  · cases connection <;> cases cs <;> rfl

/-- C7 (amended) with each of the three arguments null in turn. -/
theorem init_null_argument_witness :
    init sdbConsts Remote.ok none (some "sales".toList) (some "orders".toList) State.fresh
        = (sdbConsts.SDB_ERR_INVALID_ARG, State.fresh)
    ∧ init sdbConsts Remote.ok (some ⟨7⟩) none (some "orders".toList) State.fresh
        = (sdbConsts.SDB_ERR_INVALID_ARG, State.fresh)
    ∧ init sdbConsts Remote.ok (some ⟨7⟩) (some "sales".toList) none State.fresh
        = (sdbConsts.SDB_ERR_INVALID_ARG, State.fresh) :=
  ⟨init_null_argument sdbConsts Remote.ok none _ _ State.fresh (Or.inl rfl),
    init_null_argument sdbConsts Remote.ok (some ⟨7⟩) none _ State.fresh (Or.inr (Or.inl rfl)),
    init_null_argument sdbConsts Remote.ok (some ⟨7⟩) _ none State.fresh
      (Or.inr (Or.inr rfl))⟩

/-! ## Statuses that count as success -/

/-- C8: whenever the remote `createIndex` call reports `SDB_IXM_REDEF`,
`create_index` returns `SDB_ERR_OK` after that one call on the collection
reference: no read of the transaction flag, no reconnect attempt, no
translation. -/
theorem create_index_redef_is_success (c : Consts) (r : Remote) (s : State)
    (h : r.cl_status s.cl_calls = c.SDB_IXM_REDEF) :
    create_index c r s = (c.SDB_ERR_OK, s.log (.cl .createIndex))
    ∧ (create_index c r s).2.cl_calls = s.cl_calls + 1
    ∧ (create_index c r s).2.connects = s.connects
    ∧ (create_index c r s).2.conversions = s.conversions := by
  have e : create_index c r s = (c.SDB_ERR_OK, s.log (.cl .createIndex)) := by
    rw [create_index, create_index_from]
    simp [cl_call, h]
  rw [e]
  simp [Event.is_cl]

/-- C8 on a bound handle whose remote reports `SDB_IXM_REDEF`. -/
theorem create_index_redef_is_success_witness :
    create_index sdbConsts Remote.index_redef State.bound
        = (sdbConsts.SDB_ERR_OK, State.bound.log (.cl .createIndex))
    ∧ (create_index sdbConsts Remote.index_redef State.bound).2.cl_calls = 1
    ∧ (create_index sdbConsts Remote.index_redef State.bound).2.connects = 0
    ∧ (create_index sdbConsts Remote.index_redef State.bound).2.conversions = 0 :=
  create_index_redef_is_success sdbConsts Remote.index_redef State.bound (by decide)

/-- C9: whenever the remote `dropIndex` call reports `SDB_IXM_NOTEXIST`,
`drop_index` returns `SDB_ERR_OK`, and whenever the remote `drop` call reports
`SDB_DMS_NOTEXIST`, `drop` returns `SDB_ERR_OK`; in both cases the one call on
the collection reference is the only call made: the transaction flag is not
read, `connect` is not called and `convert_sdb_code` is not reached. -/
theorem drop_notexist_is_success (c : Consts) (r : Remote) (s : State) :
    (r.cl_status s.cl_calls = c.SDB_IXM_NOTEXIST →
      drop_index c r s = (c.SDB_ERR_OK, s.log (.cl .dropIndex))
      ∧ (drop_index c r s).2.cl_calls = s.cl_calls + 1)
    ∧ (r.cl_status s.cl_calls = c.SDB_DMS_NOTEXIST →
      drop c r s = (c.SDB_ERR_OK, s.log (.cl .drop))
      ∧ (drop c r s).2.cl_calls = s.cl_calls + 1
      ∧ (drop c r s).2.transaction_queries = s.transaction_queries
      ∧ (drop c r s).2.connects = s.connects
      ∧ (drop c r s).2.conversions = s.conversions) := by
  constructor
  · intro h
    have e : drop_index c r s = (c.SDB_ERR_OK, s.log (.cl .dropIndex)) := by
      rw [drop_index, drop_index_from]
      simp [cl_call, h]
    rw [e]
    simp [Event.is_cl]
  · intro h
    have e : drop c r s = (c.SDB_ERR_OK, s.log (.cl .drop)) := by
      rw [drop, drop_from]
      simp [cl_call, h]
    rw [e]
    simp [Event.is_cl]

/-- C9 on a bound handle whose remote reports the does-not-exist statuses. -/
theorem drop_notexist_is_success_witness :
    (drop_index sdbConsts Remote.index_notexist State.bound
        = (sdbConsts.SDB_ERR_OK, State.bound.log (.cl .dropIndex))
      ∧ (drop_index sdbConsts Remote.index_notexist State.bound).2.cl_calls = 1)
    ∧ (drop sdbConsts Remote.collection_notexist State.bound
        = (sdbConsts.SDB_ERR_OK, State.bound.log (.cl .drop))
      ∧ (drop sdbConsts Remote.collection_notexist State.bound).2.cl_calls = 1
      ∧ (drop sdbConsts Remote.collection_notexist State.bound).2.transaction_queries = 0
      ∧ (drop sdbConsts Remote.collection_notexist State.bound).2.connects = 0
      ∧ (drop sdbConsts Remote.collection_notexist State.bound).2.conversions = 0) :=
  ⟨(drop_notexist_is_success sdbConsts Remote.index_notexist State.bound).1 (by decide),
    (drop_notexist_is_success sdbConsts Remote.collection_notexist State.bound).2 (by decide)⟩

/-! ## Success at the first attempt -/

/-- C10: for every retry-wrapped operation, if every remote call returns success
(the calls on the collection reference and the fetches), the operation returns
`SDB_ERR_OK`, makes exactly one call on the collection reference and no
reconnect attempt. -/
theorem all_success_single_call (c : Consts) (r : Remote) (op : Op) (s : State)
    (hcl : ∀ k, r.cl_status k = c.SDB_ERR_OK)
    (hfetch : ∀ k, r.fetch_status k = c.SDB_ERR_OK) :
    (run c r op s).1 = c.SDB_ERR_OK
    ∧ (run c r op s).2.cl_calls = s.cl_calls + 1
    ∧ (run c r op s).2.connects = s.connects
    ∧ (run c r op s).2.trace
        = (if op = .query_one then [Event.cursor_tmp_next] else [])
            ++ .cl op.method :: s.trace := by
  rw [run_eq_retry_loop, ok_step c r op 2 s (hcl _) (fun _ => hfetch _)]
  exact ⟨rfl, succeeded_cl_calls r op s, succeeded_connects r op s, succeeded_trace r op s⟩

/-- C10 at `query_one` on a bound handle. -/
theorem all_success_single_call_witness :
    (run sdbConsts Remote.ok .query_one State.bound).1 = 0
    ∧ (run sdbConsts Remote.ok .query_one State.bound).2.cl_calls = 1
    ∧ (run sdbConsts Remote.ok .query_one State.bound).2.connects = 0
    ∧ (run sdbConsts Remote.ok .query_one State.bound).2.trace
        = [.cursor_tmp_next, .cl .query, .getCollection, .getCollectionSpace] :=
  all_success_single_call sdbConsts Remote.ok .query_one State.bound (fun _ => rfl)
    (fun _ => rfl)

/-! ## Reasoning about every run of the loop -/

/-- Induction over the runs of the shared loop: a property of (retries left,
starting state, outcome) that holds for the three ways a run can end and is
carried back over a retry holds for every run. -/
theorem retry_loop_induction (c : Consts) (r : Remote) (op : Op)
    (P : Nat → State → Int × State → Prop)
    (hdone : ∀ n s, (attempt c r op s).1 = c.SDB_ERR_OK → P n s (attempt c r op s))
    (hother : ∀ n s, (attempt c r op s).1 ≠ c.SDB_ERR_OK →
      c.IS_SDB_NET_ERR (attempt c r op s).1 = false →
      P n s (convert_and_return c (attempt c r op s).1 (attempt c r op s).2))
    (hstop : ∀ n s, (attempt c r op s).1 ≠ c.SDB_ERR_OK →
      c.IS_SDB_NET_ERR (attempt c r op s).1 = true →
      (r.transaction_on (attempt c r op s).2.transaction_queries = true
        ∨ r.connect_status (attempt c r op s).2.connects ≠ 0 ∨ n = 0) →
      P n s (convert_and_return c (attempt c r op s).1
        (((attempt c r op s).2.log .is_transaction_on).log .connect)))
    (hagain : ∀ n s res, (attempt c r op s).1 ≠ c.SDB_ERR_OK →
      c.IS_SDB_NET_ERR (attempt c r op s).1 = true →
      r.transaction_on (attempt c r op s).2.transaction_queries = false →
      r.connect_status (attempt c r op s).2.connects = 0 →
      P n (((attempt c r op s).2.log .is_transaction_on).log .connect) res →
      P (n + 1) s res) :
    ∀ n s, P n s (retry_loop c r op n s) := by
  intro n
  induction n with
  | zero =>
    intro s
    by_cases h : (attempt c r op s).1 = c.SDB_ERR_OK
    · rw [retry_loop_done c r op 0 s h]; exact hdone 0 s h
    · cases hnet : c.IS_SDB_NET_ERR (attempt c r op s).1
      · rw [retry_loop_other c r op 0 s h hnet]; exact hother 0 s h hnet
      · rw [retry_loop_give_up c r op 0 s h hnet (Or.inr (Or.inr rfl))]
        exact hstop 0 s h hnet (Or.inr (Or.inr rfl))
  | succ n ih =>
    intro s
    by_cases h : (attempt c r op s).1 = c.SDB_ERR_OK
    · rw [retry_loop_done c r op (n + 1) s h]; exact hdone (n + 1) s h
    · cases hnet : c.IS_SDB_NET_ERR (attempt c r op s).1
      · rw [retry_loop_other c r op (n + 1) s h hnet]; exact hother (n + 1) s h hnet
      · cases htx : r.transaction_on (attempt c r op s).2.transaction_queries
        · by_cases hco : r.connect_status (attempt c r op s).2.connects = 0
          · rw [retry_loop_again c r op n s h hnet htx hco]
            exact hagain n s _ h hnet htx hco (ih _)
          · rw [retry_loop_give_up c r op (n + 1) s h hnet (Or.inr (Or.inl hco))]
            exact hstop (n + 1) s h hnet (Or.inr (Or.inl hco))
        · rw [retry_loop_give_up c r op (n + 1) s h hnet (Or.inl htx)]
          exact hstop (n + 1) s h hnet (Or.inl htx)

@[simp] theorem log_cl (s : State) (e : Event) : (s.log e).cl = s.cl := rfl

@[simp] theorem log_cs_calls (s : State) (e : Event) :
    (s.log e).cs_calls = s.cs_calls + (if e = .getCollectionSpace then 1 else 0) := by
  simp [State.log, State.cs_calls, List.count_cons]

@[simp] theorem log_getcl_calls (s : State) (e : Event) :
    (s.log e).getcl_calls = s.getcl_calls + (if e = .getCollection then 1 else 0) := by
  simp [State.log, State.getcl_calls, List.count_cons]

/-- The trace after an attempt: the call on the collection reference, and for
`query_one` possibly the fetch on the temporary cursor. -/
theorem attempt_trace (c : Consts) (r : Remote) (op : Op) (s : State) :
    (attempt c r op s).2.trace = .cl op.method :: s.trace
    ∨ (op = .query_one
        ∧ (attempt c r op s).2.trace = .cursor_tmp_next :: .cl op.method :: s.trace) := by
  cases op <;> simp [attempt, cl_call, cl_query_cursor, fetch, Op.method]
  split <;> simp

theorem attempt_cl (c : Consts) (r : Remote) (op : Op) (s : State) :
    (attempt c r op s).2.cl = s.cl := by
  cases op <;> simp [attempt, cl_call, cl_query_cursor, fetch]
  split <;> simp

theorem attempt_cs_calls (c : Consts) (r : Remote) (op : Op) (s : State) :
    (attempt c r op s).2.cs_calls = s.cs_calls := by
  rcases attempt_trace c r op s with h | ⟨_, h⟩ <;> simp [State.cs_calls, h]

theorem attempt_getcl_calls (c : Consts) (r : Remote) (op : Op) (s : State) :
    (attempt c r op s).2.getcl_calls = s.getcl_calls := by
  rcases attempt_trace c r op s with h | ⟨_, h⟩ <;> simp [State.getcl_calls, h]

/-- A failed attempt ends with the status of its last remote call. -/
theorem attempt_last_remote_status (c : Consts) (r : Remote) (op : Op) (s : State)
    (h : (attempt c r op s).1 ≠ c.SDB_ERR_OK) :
    last_remote_status r (attempt c r op s).2.trace = some (attempt c r op s).1 := by
  cases op <;>
    simp_all [attempt, cl_call, cl_query_cursor, fetch, last_remote_status, State.cl_calls,
      State.fetches, State.log]
  split <;> simp [last_remote_status, List.countP_cons, Event.is_fetch]

/-- Every run of the loop begins with a call on the collection reference. -/
theorem retry_loop_trace_begins (c : Consts) (r : Remote) (op : Op) (n : Nat) (s : State) :
    ∃ rest, (retry_loop c r op n s).2.trace = rest ++ .cl op.method :: s.trace := by
  refine retry_loop_induction c r op
    (fun _ s res => ∃ rest, res.2.trace = rest ++ .cl op.method :: s.trace) ?_ ?_ ?_ ?_ n s
  · intro _ s _
    rcases attempt_trace c r op s with h | ⟨_, h⟩
    · exact ⟨[], by simp [h]⟩
    · exact ⟨[.cursor_tmp_next], by simp [h]⟩
  · intro _ s _ _
    rcases attempt_trace c r op s with h | ⟨_, h⟩
    · exact ⟨[.convert_sdb_code], by simp [convert_and_return, h]⟩
    · exact ⟨[.convert_sdb_code, .cursor_tmp_next], by simp [convert_and_return, h]⟩
  · intro _ s _ _ _
    rcases attempt_trace c r op s with h | ⟨_, h⟩
    · exact ⟨[.convert_sdb_code, .connect, .is_transaction_on],
        by simp [convert_and_return, h]⟩
    · exact ⟨[.convert_sdb_code, .connect, .is_transaction_on, .cursor_tmp_next],
        by simp [convert_and_return, h]⟩
  · intro _ s res _ _ _ _ ih
    obtain ⟨rest, hrest⟩ := ih
    rcases attempt_trace c r op s with h | ⟨_, h⟩
    · exact ⟨rest ++ [.cl op.method, .connect, .is_transaction_on], by simp [hrest, h]⟩
    · exact ⟨rest ++ [.cl op.method, .connect, .is_transaction_on, .cursor_tmp_next],
        by simp [hrest, h]⟩

/-- No run of the loop touches the collection reference of the handle or
resolves it again. -/
theorem retry_loop_keeps_reference (c : Consts) (r : Remote) (op : Op) (n : Nat) (s : State) :
    (retry_loop c r op n s).2.cl = s.cl
    ∧ (retry_loop c r op n s).2.cs_calls = s.cs_calls
    ∧ (retry_loop c r op n s).2.getcl_calls = s.getcl_calls := by
  refine retry_loop_induction c r op
    (fun _ s res => res.2.cl = s.cl ∧ res.2.cs_calls = s.cs_calls
      ∧ res.2.getcl_calls = s.getcl_calls) ?_ ?_ ?_ ?_ n s
  · intro _ s _
    exact ⟨attempt_cl c r op s, attempt_cs_calls c r op s, attempt_getcl_calls c r op s⟩
  · intro _ s _ _
    simp [convert_and_return, attempt_cl, attempt_cs_calls, attempt_getcl_calls]
  · intro _ s _ _ _
    simp [convert_and_return, attempt_cl, attempt_cs_calls, attempt_getcl_calls]
  · intro _ s res _ _ _ _ ih
    simpa [attempt_cl, attempt_cs_calls, attempt_getcl_calls] using ih

/-- A run of the loop with `n` retries left makes between 1 and `n + 1` calls on
the collection reference. -/
theorem retry_loop_cl_calls_le (c : Consts) (r : Remote) (op : Op) (n : Nat) (s : State) :
    s.cl_calls + 1 ≤ (retry_loop c r op n s).2.cl_calls
    ∧ (retry_loop c r op n s).2.cl_calls ≤ s.cl_calls + (n + 1) := by
  refine retry_loop_induction c r op
    (fun n s res => s.cl_calls + 1 ≤ res.2.cl_calls ∧ res.2.cl_calls ≤ s.cl_calls + (n + 1))
    ?_ ?_ ?_ ?_ n s
  · intro n s _
    simp [attempt_cl_calls]
  · intro n s _ _
    simp [convert_and_return, attempt_cl_calls, Event.is_cl]
  · intro n s _ _ _
    simp [convert_and_return, attempt_cl_calls, Event.is_cl]
  · intro n s res _ _ _ _ ih
    simp [attempt_cl_calls, Event.is_cl] at ih
    omega

/-- A run of the loop makes at most one reconnect attempt per call on the
collection reference. -/
theorem retry_loop_connects_le (c : Consts) (r : Remote) (op : Op) (n : Nat) (s : State) :
    (retry_loop c r op n s).2.connects ≤ s.connects + (n + 1) := by
  refine retry_loop_induction c r op
    (fun n s res => res.2.connects ≤ s.connects + (n + 1)) ?_ ?_ ?_ ?_ n s
  · intro n s _
    simp [attempt_connects]
  · intro n s _ _
    simp [convert_and_return, attempt_connects]
  · intro n s _ _ _
    simp [convert_and_return, attempt_connects]
  · intro n s res _ _ _ _ ih
    simp [attempt_connects] at ih
    omega

/-- A value other than `SDB_ERR_OK` returned by the loop is the translation of
the status of the last remote call. -/
theorem retry_loop_failure_status (c : Consts) (r : Remote) (op : Op) (n : Nat) (s : State)
    (h : (retry_loop c r op n s).1 ≠ c.SDB_ERR_OK) :
    (last_remote_status r (retry_loop c r op n s).2.trace).map c.convert_sdb_code
      = some (retry_loop c r op n s).1 := by
  refine retry_loop_induction c r op
    (fun _ _ res => res.1 ≠ c.SDB_ERR_OK →
      (last_remote_status r res.2.trace).map c.convert_sdb_code = some res.1) ?_ ?_ ?_ ?_ n s h
  · intro _ s h1 h2
    exact absurd h1 h2
  · intro _ s h1 _ _
    simp [convert_and_return, last_remote_status, attempt_last_remote_status c r op s h1]
  · intro _ s h1 _ _ _
    simp [convert_and_return, last_remote_status, attempt_last_remote_status c r op s h1]
  · intro _ s res _ _ _ _ ih
    exact ih

/-! ## Failures that are not network errors -/

/-- C11: for every retry-wrapped operation, if the first call on the collection
reference fails with a status that is not network-classified (and is not the
status the operation counts as success), the operation returns
`convert_sdb_code` of that status at once: exactly one call on the collection
reference, no reconnect attempt, and the transaction flag is not even read. -/
theorem other_error_returned_at_once (c : Consts) (r : Remote) (op : Op) (s : State)
    (hfail : op.fails c (r.cl_status s.cl_calls))
    (hnet : c.IS_SDB_NET_ERR (r.cl_status s.cl_calls) = false) :
    (run c r op s).1 = c.convert_sdb_code (r.cl_status s.cl_calls)
    ∧ (run c r op s).2.cl_calls = s.cl_calls + 1
    ∧ (run c r op s).2.connects = s.connects
    ∧ (run c r op s).2.transaction_queries = s.transaction_queries
    ∧ (run c r op s).2.trace = .convert_sdb_code :: .cl op.method :: s.trace := by
  rw [run_eq_retry_loop, other_step c r op 2 s hfail hnet]
  simp [called_cl_calls, called_connects, called_transaction_queries, called_trace,
    Event.is_cl]

/-- C11 at `update` on a bound handle whose remote reports -6. -/
theorem other_error_returned_at_once_witness :
    (run sdbConsts Remote.other_error .update State.bound).1 = 49994
    ∧ (run sdbConsts Remote.other_error .update State.bound).2.cl_calls = 1
    ∧ (run sdbConsts Remote.other_error .update State.bound).2.connects = 0
    ∧ (run sdbConsts Remote.other_error .update State.bound).2.transaction_queries = 0
    ∧ (run sdbConsts Remote.other_error .update State.bound).2.trace
        = [.convert_sdb_code, .cl .update, .getCollection, .getCollectionSpace] :=
  other_error_returned_at_once sdbConsts Remote.other_error .update State.bound
    (by decide) (by decide)

/-! ## What a failing operation returns -/

/-- C14: for every retry-wrapped operation and every behaviour of the remote and
the connection, a returned value other than `SDB_ERR_OK` is `convert_sdb_code`
applied to the status of the last remote call the operation issued (the last
call on the collection reference, or the fetch of `query_one`), not the status
of a reconnect; in particular, when the first call fails with a
network-classified status and the reconnect fails, the result is the
translation of that status after exactly one call on the collection
reference. -/
theorem failure_is_translated_last_status (c : Consts) (r : Remote) (op : Op) (s : State) :
    ((run c r op s).1 ≠ c.SDB_ERR_OK →
      (last_remote_status r (run c r op s).2.trace).map c.convert_sdb_code
        = some (run c r op s).1)
    ∧ (op.fails c (r.cl_status s.cl_calls) →
        c.IS_SDB_NET_ERR (r.cl_status s.cl_calls) = true →
        r.connect_status s.connects ≠ 0 →
        (run c r op s).1 = c.convert_sdb_code (r.cl_status s.cl_calls)
        ∧ (run c r op s).2.cl_calls = s.cl_calls + 1) := by
  rw [run_eq_retry_loop]
  refine ⟨retry_loop_failure_status c r op 2 s, ?_⟩
  intro hfail hnet hco
  rw [give_up_step c r op 2 s hfail hnet (Or.inr (Or.inl hco))]
  simp [retried_cl_calls, Event.is_cl]

/-- C14 at `del` on a bound handle: `SDB_NETWORK` (-15) from the call, the
reconnect fails with -64; the result 49985 is the translation of the status of
the call. -/
theorem failure_is_translated_last_status_witness :
    (last_remote_status Remote.net_no_reconnect
        (run sdbConsts Remote.net_no_reconnect .del State.bound).2.trace).map
          sdbConsts.convert_sdb_code
      = some (run sdbConsts Remote.net_no_reconnect .del State.bound).1
    ∧ (run sdbConsts Remote.net_no_reconnect .del State.bound).1 = 49985
    ∧ (run sdbConsts Remote.net_no_reconnect .del State.bound).2.cl_calls = 1 :=
  ⟨(failure_is_translated_last_status sdbConsts Remote.net_no_reconnect .del State.bound).1
      (by decide),
    (failure_is_translated_last_status sdbConsts Remote.net_no_reconnect .del State.bound).2
      (by decide) (by decide) (by decide)⟩

/-! ## The collection reference across a reconnect -/

/-- C15, as stated, fails: `insert` on a bound handle whose remote fails with
`SDB_NETWORK` twice and then succeeds.  After each reconnect the next call is
`cl.insert` again, on the reference resolved by `init` before the reconnects; no
`getCollectionSpace` or `getCollection` is made by the operation. -/
theorem retry_reuses_collection_reference :
    (run sdbConsts Remote.net_twice .insert State.bound).1 = 0
    ∧ (run sdbConsts Remote.net_twice .insert State.bound).2.history
        = [.getCollectionSpace, .getCollection, .cl .insert, .is_transaction_on, .connect,
            .cl .insert, .is_transaction_on, .connect, .cl .insert]
    ∧ (run sdbConsts Remote.net_twice .insert State.bound).2.cl = State.bound.cl
    ∧ (run sdbConsts Remote.net_twice .insert State.bound).2.getcl_calls
        = State.bound.getcl_calls := by
  decide

/-- C15, amended: for every retry-wrapped operation and every behaviour of the
remote and the connection, the operation never calls `getCollectionSpace` or
`getCollection` and leaves the collection reference of the handle as it was;
after a network-classified failure and a successful reconnect (no transaction
reported) the retried call on the collection reference is the very next call,
made on that same reference. -/
theorem operations_never_resolve_again (c : Consts) (r : Remote) (op : Op) (s : State) :
    (run c r op s).2.cl = s.cl
    ∧ (run c r op s).2.cs_calls = s.cs_calls
    ∧ (run c r op s).2.getcl_calls = s.getcl_calls
    ∧ (op.fails c (r.cl_status s.cl_calls) →
        c.IS_SDB_NET_ERR (r.cl_status s.cl_calls) = true →
        r.transaction_on s.transaction_queries = false →
        r.connect_status s.connects = 0 →
        ∃ rest, (run c r op s).2.trace
          = rest ++ [.cl op.method, .connect, .is_transaction_on, .cl op.method] ++ s.trace) := by
  rw [run_eq_retry_loop]
  obtain ⟨h1, h2, h3⟩ := retry_loop_keeps_reference c r op 2 s
  refine ⟨h1, h2, h3, ?_⟩
  intro hfail hnet htx hco
  rw [retry_step c r op 1 s hfail hnet htx hco]
  obtain ⟨rest, hrest⟩ := retry_loop_trace_begins c r op 1 (op.retried r s)
  exact ⟨rest, by simp [hrest, retried_trace]⟩

/-- C15 (amended) at `insert` on a bound handle with `SDB_NETWORK` on the first
two calls. -/
theorem operations_never_resolve_again_witness :
    (run sdbConsts Remote.net_twice .insert State.bound).2.cl = State.bound.cl
    ∧ (run sdbConsts Remote.net_twice .insert State.bound).2.getcl_calls = 1
    ∧ ∃ rest, (run sdbConsts Remote.net_twice .insert State.bound).2.trace
        = rest ++ [.cl .insert, .connect, .is_transaction_on, .cl .insert]
            ++ State.bound.trace :=
  ⟨(operations_never_resolve_again sdbConsts Remote.net_twice .insert State.bound).1,
    (operations_never_resolve_again sdbConsts Remote.net_twice .insert State.bound).2.2.1,
    (operations_never_resolve_again sdbConsts Remote.net_twice .insert State.bound).2.2.2
      (by decide) (by decide) (by decide) (by decide)⟩

/-! ## Statuses that count as success, on a retry -/

/-- C17: with no transaction active and reconnects succeeding, `create_index`
returns `SDB_ERR_OK` when an attempt fails with a network-classified status and
the following retry reports `SDB_IXM_REDEF`, and so do `drop_index` with
`SDB_IXM_NOTEXIST` and `drop` with `SDB_DMS_NOTEXIST`: both when the status
comes on the second attempt and when it comes on the third. -/
theorem normalization_applies_on_retry (c : Consts) (r : Remote) (s : State) (op : Op)
    (st : Int)
    (hop : (op, st) ∈ [(Op.create_index, c.SDB_IXM_REDEF), (Op.drop_index, c.SDB_IXM_NOTEXIST),
      (Op.drop, c.SDB_DMS_NOTEXIST)])
    (htx : ∀ k, r.transaction_on k = false)
    (hco : ∀ k, r.connect_status k = 0)
    (hfail1 : op.fails c (r.cl_status s.cl_calls))
    (hnet1 : c.IS_SDB_NET_ERR (r.cl_status s.cl_calls) = true) :
    (r.cl_status (s.cl_calls + 1) = st →
      (run c r op s).1 = c.SDB_ERR_OK
      ∧ (run c r op s).2.cl_calls = s.cl_calls + 2
      ∧ (run c r op s).2.connects = s.connects + 1
      ∧ (run c r op s).2.conversions = s.conversions)
    ∧ (op.fails c (r.cl_status (s.cl_calls + 1)) →
      c.IS_SDB_NET_ERR (r.cl_status (s.cl_calls + 1)) = true →
      r.cl_status (s.cl_calls + 2) = st →
      (run c r op s).1 = c.SDB_ERR_OK
      ∧ (run c r op s).2.cl_calls = s.cl_calls + 3
      ∧ (run c r op s).2.connects = s.connects + 2
      ∧ (run c r op s).2.conversions = s.conversions) := by
  have hn : op.normalized c = some st := by
    simp only [List.mem_cons, Prod.mk.injEq, List.mem_singleton, List.not_mem_nil,
      or_false] at hop
    rcases hop with ⟨h1, h2⟩ | ⟨h1, h2⟩ | ⟨h1, h2⟩ <;> subst h1 <;> subst h2 <;> rfl
  have c1 := retried_cl_calls r op s
  have c2 := retried_cl_calls r op (op.retried r s)
  rw [c1] at c2
  rw [run_eq_retry_loop, retry_step c r op 1 s hfail1 hnet1 (htx _) (hco _)]
  constructor
  · intro h2
    rw [normalized_step c r op 1 _ (by rw [c1, h2]; exact hn)]
    simp [called_cl_calls, called_connects, retried_cl_calls, retried_connects,
      State.conversions, called_trace, retried_trace, List.count_cons]
  · intro hfail2 hnet2 h3
    rw [retry_step c r op 0 _ (by rw [c1]; exact hfail2) (by rw [c1]; exact hnet2) (htx _)
        (hco _),
      normalized_step c r op 0 _ (by rw [c2, h3]; exact hn)]
    simp [called_cl_calls, called_connects, retried_cl_calls, retried_connects,
      State.conversions, called_trace, retried_trace, List.count_cons]

/-- C17 at `create_index` on a bound handle: `SDB_NETWORK`, then `SDB_IXM_REDEF`
on the retry. -/
theorem normalization_applies_on_retry_witness :
    (run sdbConsts (Remote.net_then (-247)) .create_index State.bound).1 = 0
    ∧ (run sdbConsts (Remote.net_then (-247)) .create_index State.bound).2.cl_calls = 2
    ∧ (run sdbConsts (Remote.net_then (-247)) .create_index State.bound).2.connects = 1
    ∧ (run sdbConsts (Remote.net_then (-247)) .create_index State.bound).2.conversions = 0 :=
  (normalization_applies_on_retry sdbConsts (Remote.net_then (-247)) State.bound
    .create_index (-247) (by decide) (fun _ => rfl) (fun _ => rfl) (by decide)
    (by decide)).1 (by decide)

/-! ## The cursor of the handle -/

theorem attempt_query_one_cursor (c : Consts) (r : Remote) (s : State) :
    (attempt c r .query_one s).2.cursor = s.cursor := by
  simp only [attempt, cl_call, fetch]
  split <;> rfl

theorem retry_loop_query_one_cursor (c : Consts) (r : Remote) (n : Nat) (s : State) :
    (retry_loop c r .query_one n s).2.cursor = s.cursor := by
  refine retry_loop_induction c r .query_one (fun _ s res => res.2.cursor = s.cursor)
    ?_ ?_ ?_ ?_ n s
  · intro _ s _
    exact attempt_query_one_cursor c r s
  · intro _ s _ _
    simp [convert_and_return, attempt_query_one_cursor]
  · intro _ s _ _ _
    simp [convert_and_return, attempt_query_one_cursor]
  · intro _ s res _ _ _ _ ih
    simpa [attempt_query_one_cursor] using ih

theorem attempt_query_cursor (c : Consts) (r : Remote) (s : State) :
    (attempt c r .query s).2.cursor = r.query_cursor ((attempt c r .query s).2.cl_calls - 1) := by
  rw [attempt_cl_calls]
  rfl

theorem retry_loop_query_cursor (c : Consts) (r : Remote) (n : Nat) (s : State) :
    (retry_loop c r .query n s).2.cursor
      = r.query_cursor ((retry_loop c r .query n s).2.cl_calls - 1) := by
  refine retry_loop_induction c r .query
    (fun _ _ res => res.2.cursor = r.query_cursor (res.2.cl_calls - 1)) ?_ ?_ ?_ ?_ n s
  · intro _ s _
    exact attempt_query_cursor c r s
  · intro _ s _ _
    simpa [convert_and_return, Event.is_cl] using attempt_query_cursor c r s
  · intro _ s _ _ _
    simpa [convert_and_return, Event.is_cl] using attempt_query_cursor c r s
  · intro _ s res _ _ _ _ ih
    exact ih

/-- C18: `query_one` leaves the cursor of the handle unchanged for every
behaviour of the remote and the connection (success, failure or retry), so a
`next` or `current` after it works on the same cursor as before; `query` leaves
in the handle the cursor that its last `cl.query` call, the one of the last
attempt, stored there. -/
theorem query_one_keeps_cursor (c : Consts) (r : Remote) (s : State) :
    (query_one c r s).2.cursor = s.cursor
    ∧ (next c r (query_one c r s).2).2.cursor = s.cursor
    ∧ (current c r (query_one c r s).2).2.cursor = s.cursor
    ∧ (query c r s).2.cursor = r.query_cursor ((query c r s).2.cl_calls - 1) := by
  have h1 : (query_one c r s).2.cursor = s.cursor := by
    rw [query_one, query_one_from_eq]
    exact retry_loop_query_one_cursor c r 2 s
  refine ⟨h1, ?_, ?_, ?_⟩
  · rw [next_eq]
    split <;> simpa using h1
  · rw [current_eq]
    split <;> simpa using h1
  · rw [query, query_from_eq]
    exact retry_loop_query_cursor c r 2 s

/-! ## The reconnect helper -/

/-- C19: `check_connect(rc)` calls `Sdb_conn::connect` if and only if `rc` is
`SDB_NETWORK` or `SDB_NOT_CONNECTED`, and then returns the status of that call;
for every other `rc` it returns `SDB_ERR_OK` and leaves the state as it was; it
never reads the transaction flag. -/
theorem check_connect_reconnects_iff (c : Consts) (r : Remote) (rc : Int) (s : State) :
    ((check_connect c r rc s).2.connects = s.connects + 1 ↔
      (rc = c.SDB_NETWORK ∨ rc = c.SDB_NOT_CONNECTED))
    ∧ ((rc = c.SDB_NETWORK ∨ rc = c.SDB_NOT_CONNECTED) →
      check_connect c r rc s = (r.connect_status s.connects, s.log .connect))
    ∧ (¬ (rc = c.SDB_NETWORK ∨ rc = c.SDB_NOT_CONNECTED) →
      check_connect c r rc s = (c.SDB_ERR_OK, s))
    ∧ (check_connect c r rc s).2.transaction_queries = s.transaction_queries := by
  by_cases h : c.SDB_NETWORK = rc ∨ c.SDB_NOT_CONNECTED = rc
  · have h2 : rc = c.SDB_NETWORK ∨ rc = c.SDB_NOT_CONNECTED := h.imp Eq.symm Eq.symm
    simp [check_connect, h, h2, conn_connect]
  · have h2 : ¬ (rc = c.SDB_NETWORK ∨ rc = c.SDB_NOT_CONNECTED) :=
      fun h3 => h (h3.imp Eq.symm Eq.symm)
    simp [check_connect, h, h2]

/-- C19 on a bound handle whose reconnects fail with -64: `SDB_NETWORK` and
`SDB_NOT_CONNECTED` lead to one `connect` call whose status is returned;
`SDB_DMS_EOC` leads to `SDB_ERR_OK` and no call. -/
theorem check_connect_reconnects_iff_witness :
    check_connect sdbConsts Remote.net_no_reconnect (-15) State.bound
        = (-64, State.bound.log .connect)
    ∧ check_connect sdbConsts Remote.net_no_reconnect (-64) State.bound
        = (-64, State.bound.log .connect)
    ∧ check_connect sdbConsts Remote.net_no_reconnect (-29) State.bound = (0, State.bound) :=
  ⟨(check_connect_reconnects_iff sdbConsts Remote.net_no_reconnect (-15) State.bound).2.1
      (by decide),
    (check_connect_reconnects_iff sdbConsts Remote.net_no_reconnect (-64) State.bound).2.1
      (by decide),
    (check_connect_reconnects_iff sdbConsts Remote.net_no_reconnect (-29) State.bound).2.2.1
      (by decide)⟩

/-! ## One pass of re_init -/

/-- The function `re_init_from` over `resolve`. -/
theorem re_init_from_eq (c : Consts) (r : Remote) (n : Nat) (s : State) :
    re_init_from c r n s
      = if (resolve c r s).1 ≠ c.SDB_ERR_OK then
          if c.IS_SDB_NET_ERR (resolve c r s).1 then
            if r.transaction_on (resolve c r s).2.transaction_queries = false then
              match n with
              | m + 1 =>
                if 0 = r.connect_status (resolve c r s).2.connects then
                  re_init_from c r m (((resolve c r s).2.log .is_transaction_on).log .connect)
                else
                  convert_and_return c (resolve c r s).1
                    (((resolve c r s).2.log .is_transaction_on).log .connect)
              | 0 => convert_and_return c (resolve c r s).1
                  ((resolve c r s).2.log .is_transaction_on)
            else convert_and_return c (resolve c r s).1
              ((resolve c r s).2.log .is_transaction_on)
          else convert_and_return c (resolve c r s).1 (resolve c r s).2
        else resolve c r s := by
  have e : resolve c r s
      = (if (getCollectionSpace r s).1 ≠ c.SDB_ERR_OK then getCollectionSpace r s
          else getCollection r (getCollectionSpace r s).2) := rfl
  cases n with
  | zero =>
    rw [re_init_from]
    simp only [← e]
    generalize resolve c r s = p
    obtain ⟨rc, s1⟩ := p
    cases htx : r.transaction_on s1.transaction_queries <;>
      simp [conn_is_transaction_on, htx]
  | succ m =>
    rw [re_init_from]
    simp only [← e]
    generalize resolve c r s = p
    obtain ⟨rc, s1⟩ := p
    cases htx : r.transaction_on s1.transaction_queries <;>
      simp [conn_is_transaction_on, conn_connect, htx]

theorem re_init_done (c : Consts) (r : Remote) (n : Nat) (s : State)
    (h : (resolve c r s).1 = c.SDB_ERR_OK) :
    re_init_from c r n s = resolve c r s := by
  rw [re_init_from_eq]; simp [h]

theorem re_init_other (c : Consts) (r : Remote) (n : Nat) (s : State)
    (h : (resolve c r s).1 ≠ c.SDB_ERR_OK)
    (hnet : c.IS_SDB_NET_ERR (resolve c r s).1 = false) :
    re_init_from c r n s = convert_and_return c (resolve c r s).1 (resolve c r s).2 := by
  rw [re_init_from_eq]; simp [h, hnet]

/-- A network error with a transaction reported or no retry left: the status is
translated and `connect` is not called. -/
theorem re_init_stop (c : Consts) (r : Remote) (n : Nat) (s : State)
    (h : (resolve c r s).1 ≠ c.SDB_ERR_OK)
    (hnet : c.IS_SDB_NET_ERR (resolve c r s).1 = true)
    (hstop : r.transaction_on (resolve c r s).2.transaction_queries = true ∨ n = 0) :
    re_init_from c r n s
      = convert_and_return c (resolve c r s).1 ((resolve c r s).2.log .is_transaction_on) := by
  rw [re_init_from_eq]
  rcases hstop with h1 | h1
  · simp [h, hnet, h1]
  · subst h1
    simp [h, hnet]

/-- A network error, no transaction, a retry left, and the reconnect fails: the
status of the resolution is translated. -/
theorem re_init_connect_fails (c : Consts) (r : Remote) (n : Nat) (s : State)
    (h : (resolve c r s).1 ≠ c.SDB_ERR_OK)
    (hnet : c.IS_SDB_NET_ERR (resolve c r s).1 = true)
    (htx : r.transaction_on (resolve c r s).2.transaction_queries = false)
    (hco : r.connect_status (resolve c r s).2.connects ≠ 0) :
    re_init_from c r (n + 1) s
      = convert_and_return c (resolve c r s).1
          (((resolve c r s).2.log .is_transaction_on).log .connect) := by
  rw [re_init_from_eq]
  have h2 : ¬ (0 = r.connect_status (resolve c r s).2.connects) := fun e => hco e.symm
  simp [h, hnet, htx, h2]

/-- A network error, no transaction, a retry left, and the reconnect succeeds:
the function starts over with one retry less. -/
theorem re_init_again (c : Consts) (r : Remote) (n : Nat) (s : State)
    (h : (resolve c r s).1 ≠ c.SDB_ERR_OK)
    (hnet : c.IS_SDB_NET_ERR (resolve c r s).1 = true)
    (htx : r.transaction_on (resolve c r s).2.transaction_queries = false)
    (hco : r.connect_status (resolve c r s).2.connects = 0) :
    re_init_from c r (n + 1) s
      = re_init_from c r n (((resolve c r s).2.log .is_transaction_on).log .connect) := by
  rw [re_init_from_eq]
  simp [h, hnet, htx, hco]

/-- Induction over the runs of `re_init`. -/
theorem re_init_induction (c : Consts) (r : Remote)
    (P : Nat → State → Int × State → Prop)
    (hdone : ∀ n s, (resolve c r s).1 = c.SDB_ERR_OK → P n s (resolve c r s))
    (hother : ∀ n s, (resolve c r s).1 ≠ c.SDB_ERR_OK →
      c.IS_SDB_NET_ERR (resolve c r s).1 = false →
      P n s (convert_and_return c (resolve c r s).1 (resolve c r s).2))
    (hstop : ∀ n s, (resolve c r s).1 ≠ c.SDB_ERR_OK →
      c.IS_SDB_NET_ERR (resolve c r s).1 = true →
      (r.transaction_on (resolve c r s).2.transaction_queries = true ∨ n = 0) →
      P n s (convert_and_return c (resolve c r s).1
        ((resolve c r s).2.log .is_transaction_on)))
    (hfail : ∀ n s, (resolve c r s).1 ≠ c.SDB_ERR_OK →
      c.IS_SDB_NET_ERR (resolve c r s).1 = true →
      r.transaction_on (resolve c r s).2.transaction_queries = false →
      r.connect_status (resolve c r s).2.connects ≠ 0 →
      P (n + 1) s (convert_and_return c (resolve c r s).1
        (((resolve c r s).2.log .is_transaction_on).log .connect)))
    (hagain : ∀ n s res, (resolve c r s).1 ≠ c.SDB_ERR_OK →
      c.IS_SDB_NET_ERR (resolve c r s).1 = true →
      r.transaction_on (resolve c r s).2.transaction_queries = false →
      r.connect_status (resolve c r s).2.connects = 0 →
      P n (((resolve c r s).2.log .is_transaction_on).log .connect) res →
      P (n + 1) s res) :
    ∀ n s, P n s (re_init_from c r n s) := by
  intro n
  induction n with
  | zero =>
    intro s
    by_cases h : (resolve c r s).1 = c.SDB_ERR_OK
    · rw [re_init_done c r 0 s h]; exact hdone 0 s h
    · cases hnet : c.IS_SDB_NET_ERR (resolve c r s).1
      · rw [re_init_other c r 0 s h hnet]; exact hother 0 s h hnet
      · rw [re_init_stop c r 0 s h hnet (Or.inr rfl)]
        exact hstop 0 s h hnet (Or.inr rfl)
  | succ n ih =>
    intro s
    by_cases h : (resolve c r s).1 = c.SDB_ERR_OK
    · rw [re_init_done c r (n + 1) s h]; exact hdone (n + 1) s h
    · cases hnet : c.IS_SDB_NET_ERR (resolve c r s).1
      · rw [re_init_other c r (n + 1) s h hnet]; exact hother (n + 1) s h hnet
      · cases htx : r.transaction_on (resolve c r s).2.transaction_queries
        · by_cases hco : r.connect_status (resolve c r s).2.connects = 0
          · rw [re_init_again c r n s h hnet htx hco]
            exact hagain n s _ h hnet htx hco (ih _)
          · rw [re_init_connect_fails c r n s h hnet htx hco]
            exact hfail n s h hnet htx hco
        · rw [re_init_stop c r (n + 1) s h hnet (Or.inl htx)]
          exact hstop (n + 1) s h hnet (Or.inl htx)

/-- The calls of one resolution: `getCollectionSpace`, and `getCollection` when
the former succeeded. -/
theorem resolve_trace (c : Consts) (r : Remote) (s : State) :
    (r.cs_status s.cs_calls ≠ c.SDB_ERR_OK
      ∧ resolve c r s = (r.cs_status s.cs_calls, s.log .getCollectionSpace))
    ∨ (r.cs_status s.cs_calls = c.SDB_ERR_OK
      ∧ (resolve c r s).1 = r.getcl_status s.getcl_calls
      ∧ (resolve c r s).2.trace = .getCollection :: .getCollectionSpace :: s.trace) := by
  by_cases h : r.cs_status s.cs_calls = c.SDB_ERR_OK
  · right
    simp [resolve, getCollectionSpace, getCollection, h, State.getcl_calls, List.count_cons]
  · left
    simp [resolve, getCollectionSpace, h]

theorem resolve_cs_calls (c : Consts) (r : Remote) (s : State) :
    (resolve c r s).2.cs_calls = s.cs_calls + 1 := by
  rcases resolve_trace c r s with ⟨_, h⟩ | ⟨_, _, h⟩ <;>
    simp [h, State.cs_calls, List.count_cons]

theorem resolve_connects (c : Consts) (r : Remote) (s : State) :
    (resolve c r s).2.connects = s.connects := by
  rcases resolve_trace c r s with ⟨_, h⟩ | ⟨_, _, h⟩ <;>
    simp [h, State.connects, List.count_cons]

theorem resolve_transaction_queries (c : Consts) (r : Remote) (s : State) :
    (resolve c r s).2.transaction_queries = s.transaction_queries := by
  rcases resolve_trace c r s with ⟨_, h⟩ | ⟨_, _, h⟩ <;>
    simp [h, State.transaction_queries, List.count_cons]

/-- A resolution ends with the status of its last call. -/
theorem resolve_last_remote_status (c : Consts) (r : Remote) (s : State) :
    last_remote_status r (resolve c r s).2.trace = some (resolve c r s).1 := by
  rcases resolve_trace c r s with ⟨_, h⟩ | ⟨_, h1, h2⟩
  · simp [h, last_remote_status, State.cs_calls]
  · simp [h1, h2, last_remote_status, State.getcl_calls, List.count_cons]

/-! ## Every run of re_init -/

/-- Every run of `re_init` begins with `getCollectionSpace`. -/
theorem re_init_trace_begins (c : Consts) (r : Remote) (n : Nat) (s : State) :
    ∃ rest, (re_init_from c r n s).2.trace = rest ++ .getCollectionSpace :: s.trace := by
  have hres : ∀ s, ∃ rest,
      (resolve c r s).2.trace = rest ++ .getCollectionSpace :: s.trace := by
    intro s
    rcases resolve_trace c r s with ⟨_, h⟩ | ⟨_, _, h⟩
    · exact ⟨[], by simp [h]⟩
    · exact ⟨[.getCollection], by simp [h]⟩
  refine re_init_induction c r
    (fun _ s res => ∃ rest, res.2.trace = rest ++ .getCollectionSpace :: s.trace)
    ?_ ?_ ?_ ?_ ?_ n s
  · intro _ s _
    exact hres s
  · intro _ s _ _
    obtain ⟨rest, h⟩ := hres s
    exact ⟨.convert_sdb_code :: rest, by simp [convert_and_return, h]⟩
  · intro _ s _ _ _
    obtain ⟨rest, h⟩ := hres s
    exact ⟨.convert_sdb_code :: .is_transaction_on :: rest, by simp [convert_and_return, h]⟩
  · intro _ s _ _ _ _
    obtain ⟨rest, h⟩ := hres s
    exact ⟨.convert_sdb_code :: .connect :: .is_transaction_on :: rest,
      by simp [convert_and_return, h]⟩
  · intro _ s res _ _ _ _ ih
    obtain ⟨rest, h⟩ := hres s
    obtain ⟨rest2, h2⟩ := ih
    exact ⟨rest2 ++ .getCollectionSpace :: .connect :: .is_transaction_on :: rest,
      by simp [h2, h]⟩

/-- A run of `re_init` with `n` retries left calls `connect` at most `n` times. -/
theorem re_init_connects_le (c : Consts) (r : Remote) (n : Nat) (s : State) :
    (re_init_from c r n s).2.connects ≤ s.connects + n := by
  refine re_init_induction c r (fun n s res => res.2.connects ≤ s.connects + n)
    ?_ ?_ ?_ ?_ ?_ n s
  · intro n s _
    simp [resolve_connects]
  · intro n s _ _
    simp [convert_and_return, resolve_connects]
  · intro n s _ _ _
    simp [convert_and_return, resolve_connects]
  · intro n s _ _ _ _
    simp [convert_and_return, resolve_connects]
  · intro n s res _ _ _ _ ih
    simp [resolve_connects] at ih
    omega

/-- A run of `re_init` with `n` retries left calls `getCollectionSpace` between
1 and `n + 1` times. -/
theorem re_init_cs_calls_le (c : Consts) (r : Remote) (n : Nat) (s : State) :
    s.cs_calls + 1 ≤ (re_init_from c r n s).2.cs_calls
    ∧ (re_init_from c r n s).2.cs_calls ≤ s.cs_calls + (n + 1) := by
  refine re_init_induction c r
    (fun n s res => s.cs_calls + 1 ≤ res.2.cs_calls ∧ res.2.cs_calls ≤ s.cs_calls + (n + 1))
    ?_ ?_ ?_ ?_ ?_ n s
  · intro n s _
    simp [resolve_cs_calls]
  · intro n s _ _
    simp [convert_and_return, resolve_cs_calls]
  · intro n s _ _ _
    simp [convert_and_return, resolve_cs_calls]
  · intro n s _ _ _ _
    simp [convert_and_return, resolve_cs_calls]
  · intro n s res _ _ _ _ ih
    simp [resolve_cs_calls] at ih
    omega

/-- With a transaction reported at every read, `re_init` never calls `connect`. -/
theorem re_init_no_connect_in_transaction (c : Consts) (r : Remote) (n : Nat) (s : State)
    (htx : ∀ k, r.transaction_on k = true) :
    (re_init_from c r n s).2.connects = s.connects := by
  refine re_init_induction c r (fun _ s res => res.2.connects = s.connects)
    ?_ ?_ ?_ ?_ ?_ n s
  · intro n s _
    simp [resolve_connects]
  · intro n s _ _
    simp [convert_and_return, resolve_connects]
  · intro n s _ _ _
    simp [convert_and_return, resolve_connects]
  · intro n s _ _ h _
    rw [htx] at h
    exact absurd h (by decide)
  · intro n s res _ _ h _ _
    rw [htx] at h
    exact absurd h (by decide)

/-- The value `re_init` returns is decided by the status of its last resolution
call: `SDB_ERR_OK` if that is `SDB_ERR_OK`, its translation otherwise. -/
theorem re_init_result (c : Consts) (r : Remote) (n : Nat) (s : State) :
    ∃ st, last_remote_status r (re_init_from c r n s).2.trace = some st
      ∧ ((st = c.SDB_ERR_OK ∧ (re_init_from c r n s).1 = c.SDB_ERR_OK)
        ∨ (st ≠ c.SDB_ERR_OK ∧ (re_init_from c r n s).1 = c.convert_sdb_code st)) := by
  refine re_init_induction c r
    (fun _ _ res => ∃ st, last_remote_status r res.2.trace = some st
      ∧ ((st = c.SDB_ERR_OK ∧ res.1 = c.SDB_ERR_OK)
        ∨ (st ≠ c.SDB_ERR_OK ∧ res.1 = c.convert_sdb_code st))) ?_ ?_ ?_ ?_ ?_ n s
  · intro _ s h
    exact ⟨_, resolve_last_remote_status c r s, Or.inl ⟨h, h⟩⟩
  · intro _ s h _
    exact ⟨_, by simpa [convert_and_return, last_remote_status]
      using resolve_last_remote_status c r s, Or.inr ⟨h, rfl⟩⟩
  · intro _ s h _ _
    exact ⟨_, by simpa [convert_and_return, last_remote_status]
      using resolve_last_remote_status c r s, Or.inr ⟨h, rfl⟩⟩
  · intro _ s h _ _ _
    exact ⟨_, by simpa [convert_and_return, last_remote_status]
      using resolve_last_remote_status c r s, Or.inr ⟨h, rfl⟩⟩
  · intro _ s res _ _ _ _ ih
    exact ih

/-! ## A successful init -/

/-- C12: for every connection and names `cs` and `cl` (none of them null), if
`getCollectionSpace` and then `getCollection` succeed, `init` returns
`SDB_ERR_OK` after exactly those two calls, and afterwards `get_cs_name()` is
the first `SDB_CS_NAME_MAX_SIZE` characters of `cs`, `get_cl_name()` the first
`SDB_CL_NAME_MAX_SIZE` characters of `cl` (so a name within the limit is
returned unchanged), and `thread_id()` is the thread id of the connection. -/
theorem init_success (c : Consts) (r : Remote) (conn : Sdb_conn) (cs cl : List Char)
    (s : State)
    (hcs : r.cs_status s.cs_calls = c.SDB_ERR_OK)
    (hcl : r.getcl_status s.getcl_calls = c.SDB_ERR_OK) :
    (init c r (some conn) (some cs) (some cl) s).1 = c.SDB_ERR_OK
    ∧ (init c r (some conn) (some cs) (some cl) s).2.trace
        = .getCollection :: .getCollectionSpace :: s.trace
    ∧ get_cs_name (init c r (some conn) (some cs) (some cl) s).2
        = cs.take c.SDB_CS_NAME_MAX_SIZE
    ∧ get_cl_name (init c r (some conn) (some cs) (some cl) s).2
        = cl.take c.SDB_CL_NAME_MAX_SIZE
    ∧ thread_id (init c r (some conn) (some cs) (some cl) s).2 = conn.thread_id
    ∧ (cs.length ≤ c.SDB_CS_NAME_MAX_SIZE →
        get_cs_name (init c r (some conn) (some cs) (some cl) s).2 = cs)
    ∧ (cl.length ≤ c.SDB_CL_NAME_MAX_SIZE →
        get_cl_name (init c r (some conn) (some cs) (some cl) s).2 = cl) := by
  have e : init c r (some conn) (some cs) (some cl) s
      = (c.SDB_ERR_OK,
          { s with
            p_conn := some conn
            m_thread_id := conn.thread_id
            cs_name := cs.take c.SDB_CS_NAME_MAX_SIZE
            cl_name := cl.take c.SDB_CL_NAME_MAX_SIZE
            cl := r.collection_ref s.getcl_calls
            trace := .getCollection :: .getCollectionSpace :: s.trace }) := by
    have hcs2 : r.cs_status (List.count Event.getCollectionSpace s.trace) = c.SDB_ERR_OK := hcs
    have hcl2 : r.getcl_status (List.count Event.getCollection s.trace) = c.SDB_ERR_OK := hcl
    simp only [init, re_init]
    rw [re_init_done]
    · simp [resolve, getCollectionSpace, getCollection, State.cs_calls, State.getcl_calls,
        State.log, List.count_cons, hcs2, hcl2]
    · simp [resolve, getCollectionSpace, getCollection, State.cs_calls, State.getcl_calls,
        State.log, List.count_cons, hcs2, hcl2]
  rw [e]
  refine ⟨rfl, rfl, rfl, rfl, rfl, ?_, ?_⟩
  · intro h
    exact List.take_of_length_le h
  · intro h
    exact List.take_of_length_le h

/-- C12 at `init(conn, "sales", "orders")` on a new handle, with a connection
of thread 7 and a remote whose calls succeed. -/
theorem init_success_witness :
    (init sdbConsts Remote.ok (some ⟨7⟩) (some "sales".toList) (some "orders".toList)
        State.fresh).1 = 0
    ∧ get_cs_name State.bound = "sales".toList
    ∧ get_cl_name State.bound = "orders".toList
    ∧ thread_id State.bound = 7
    ∧ State.bound.trace = [.getCollection, .getCollectionSpace] :=
  have h := init_success sdbConsts Remote.ok ⟨7⟩ "sales".toList "orders".toList State.fresh
    (by decide) (by decide)
  ⟨h.1, h.2.2.2.2.2.1 (by decide), h.2.2.2.2.2.2 (by decide), h.2.2.2.2.1, h.2.1⟩

/-! ## Reconnects of re_init -/

/-- C13: for every behaviour of the remote and the connection, `re_init` makes at
most 2 reconnect attempts, and none when a transaction is reported or when the
failing resolution status is not network-classified; a retry after a successful
reconnect starts with `getCollectionSpace`, also when the failure came from
`getCollection`; when the reconnect fails, or a transaction is reported, or no
retry is left, the result is `convert_sdb_code` of the failing resolution
status; in general the result is `SDB_ERR_OK` or the translation of the status
of the last resolution call.  The statements about one pass hold for every
number `n` of retries left and every state `s1` (`re_init` is the pass with 2
retries left). -/
theorem re_init_reconnects (c : Consts) (r : Remote) (s : State) :
    (re_init c r s).2.connects ≤ s.connects + 2
    ∧ ((∀ k, r.transaction_on k = true) → (re_init c r s).2.connects = s.connects)
    ∧ (∀ n s1, (resolve c r s1).1 ≠ c.SDB_ERR_OK →
        c.IS_SDB_NET_ERR (resolve c r s1).1 = false →
        (re_init_from c r n s1).1 = c.convert_sdb_code (resolve c r s1).1
        ∧ (re_init_from c r n s1).2.connects = s1.connects
        ∧ (re_init_from c r n s1).2.transaction_queries = s1.transaction_queries)
    ∧ (∀ n s1, r.cs_status s1.cs_calls = c.SDB_ERR_OK →
        r.getcl_status s1.getcl_calls ≠ c.SDB_ERR_OK →
        c.IS_SDB_NET_ERR (r.getcl_status s1.getcl_calls) = true →
        r.transaction_on s1.transaction_queries = false →
        r.connect_status s1.connects = 0 →
        ∃ rest, (re_init_from c r (n + 1) s1).2.trace
          = rest ++ [.getCollectionSpace, .connect, .is_transaction_on, .getCollection,
              .getCollectionSpace] ++ s1.trace)
    ∧ (∀ n s1, r.cs_status s1.cs_calls ≠ c.SDB_ERR_OK →
        c.IS_SDB_NET_ERR (r.cs_status s1.cs_calls) = true →
        r.transaction_on s1.transaction_queries = false →
        r.connect_status s1.connects = 0 →
        ∃ rest, (re_init_from c r (n + 1) s1).2.trace
          = rest ++ [.getCollectionSpace, .connect, .is_transaction_on, .getCollectionSpace]
              ++ s1.trace)
    ∧ (∀ n s1, (resolve c r s1).1 ≠ c.SDB_ERR_OK →
        c.IS_SDB_NET_ERR (resolve c r s1).1 = true →
        r.transaction_on s1.transaction_queries = false →
        r.connect_status s1.connects ≠ 0 →
        (re_init_from c r (n + 1) s1).1 = c.convert_sdb_code (resolve c r s1).1
        ∧ (re_init_from c r (n + 1) s1).2.connects = s1.connects + 1)
    ∧ (∀ n s1, (resolve c r s1).1 ≠ c.SDB_ERR_OK →
        c.IS_SDB_NET_ERR (resolve c r s1).1 = true →
        r.transaction_on s1.transaction_queries = true →
        (re_init_from c r n s1).1 = c.convert_sdb_code (resolve c r s1).1
        ∧ (re_init_from c r n s1).2.connects = s1.connects)
    ∧ (∀ s1, (resolve c r s1).1 ≠ c.SDB_ERR_OK →
        c.IS_SDB_NET_ERR (resolve c r s1).1 = true →
        (re_init_from c r 0 s1).1 = c.convert_sdb_code (resolve c r s1).1
        ∧ (re_init_from c r 0 s1).2.connects = s1.connects)
    ∧ (∃ st, last_remote_status r (re_init c r s).2.trace = some st
        ∧ ((st = c.SDB_ERR_OK ∧ (re_init c r s).1 = c.SDB_ERR_OK)
          ∨ (st ≠ c.SDB_ERR_OK ∧ (re_init c r s).1 = c.convert_sdb_code st))) := by
  refine ⟨re_init_connects_le c r 2 s,
    fun htx => re_init_no_connect_in_transaction c r 2 s htx, ?_, ?_, ?_, ?_, ?_, ?_,
    re_init_result c r 2 s⟩
  · intro n s1 h hnet
    rw [re_init_other c r n s1 h hnet]
    simp [convert_and_return, resolve_connects, resolve_transaction_queries]
  · intro n s1 hcs hcl hnet htx hco
    rcases resolve_trace c r s1 with ⟨h0, _⟩ | ⟨_, h1, h2⟩
    · exact absurd hcs h0
    · rw [re_init_again c r n s1 (by rw [h1]; exact hcl) (by rw [h1]; exact hnet)
        (by rw [resolve_transaction_queries]; exact htx)
        (by rw [resolve_connects]; exact hco)]
      obtain ⟨rest, hrest⟩ := re_init_trace_begins c r n
        (((resolve c r s1).2.log .is_transaction_on).log .connect)
      exact ⟨rest, by simp [hrest, h2]⟩
  · intro n s1 hcs hnet htx hco
    rcases resolve_trace c r s1 with ⟨_, h1⟩ | ⟨h0, _⟩
    · rw [re_init_again c r n s1 (by rw [h1]; exact hcs) (by rw [h1]; exact hnet)
        (by rw [resolve_transaction_queries]; exact htx)
        (by rw [resolve_connects]; exact hco)]
      obtain ⟨rest, hrest⟩ := re_init_trace_begins c r n
        (((resolve c r s1).2.log .is_transaction_on).log .connect)
      rw [h1] at hrest ⊢
      exact ⟨rest, by simpa using hrest⟩
    · exact absurd h0 hcs
  · intro n s1 h hnet htx hco
    rw [re_init_connect_fails c r n s1 h hnet
      (by rw [resolve_transaction_queries]; exact htx) (by rw [resolve_connects]; exact hco)]
    simp [convert_and_return, resolve_connects]
  · intro n s1 h hnet htx
    rw [re_init_stop c r n s1 h hnet
      (Or.inl (by rw [resolve_transaction_queries]; exact htx))]
    simp [convert_and_return, resolve_connects]
  · intro s1 h hnet
    rw [re_init_stop c r 0 s1 h hnet (Or.inr rfl)]
    simp [convert_and_return, resolve_connects]

/-- C13 on a bound handle whose `getCollection` fails with `SDB_NETWORK` every
time: without a transaction `re_init` reconnects twice, resolves three times from
`getCollectionSpace` and returns 49985; inside a transaction it does not
reconnect. -/
theorem re_init_reconnects_witness :
    (re_init sdbConsts Remote.collection_unreachable State.bound).2.connects ≤ 2
    ∧ (re_init sdbConsts Remote.collection_unreachable_in_transaction State.bound).2.connects
        = 0
    ∧ (re_init sdbConsts Remote.collection_unreachable_in_transaction State.bound).1 = 49985
    ∧ (∃ rest, (re_init sdbConsts Remote.collection_unreachable State.bound).2.trace
        = rest ++ [.getCollectionSpace, .connect, .is_transaction_on, .getCollection,
            .getCollectionSpace] ++ State.bound.trace)
    ∧ (re_init sdbConsts Remote.collection_unreachable State.bound).2.history
        = [.getCollectionSpace, .getCollection,
            .getCollectionSpace, .getCollection, .is_transaction_on, .connect,
            .getCollectionSpace, .getCollection, .is_transaction_on, .connect,
            .getCollectionSpace, .getCollection, .is_transaction_on, .convert_sdb_code] :=
  ⟨(re_init_reconnects sdbConsts Remote.collection_unreachable State.bound).1,
    (re_init_reconnects sdbConsts Remote.collection_unreachable_in_transaction
      State.bound).2.1 (fun _ => rfl),
    ((re_init_reconnects sdbConsts Remote.collection_unreachable_in_transaction
      State.bound).2.2.2.2.2.2.1 2 State.bound (by decide) (by decide) (by decide)).1,
    (re_init_reconnects sdbConsts Remote.collection_unreachable State.bound).2.2.2.1 1
      State.bound (by decide) (by decide) (by decide) (by decide) (by decide),
    by decide⟩

/-! ## Termination and the number of attempts -/

/-- C16: every retry-wrapped operation and `re_init` are total functions of the
statuses of the remote, the outcomes of the reconnects and the values of the
transaction flag (the recursion is on `retry_times`, which a retry decreases),
and for every such behaviour an operation makes at least 1 and at most 3 calls
of its primary remote operation: the call on the collection reference for the
eleven operations, `getCollectionSpace` for `re_init`. -/
theorem at_most_three_attempts (c : Consts) (r : Remote) (s : State) :
    (∀ op, s.cl_calls + 1 ≤ (run c r op s).2.cl_calls
      ∧ (run c r op s).2.cl_calls ≤ s.cl_calls + 3)
    ∧ s.cs_calls + 1 ≤ (re_init c r s).2.cs_calls
    ∧ (re_init c r s).2.cs_calls ≤ s.cs_calls + 3 := by
  refine ⟨fun op => ?_, re_init_cs_calls_le c r 2 s⟩
  rw [run_eq_retry_loop]
  exact retry_loop_cl_calls_le c r op 2 s

end SdbCl
